import Mathlib

/-!
Shallow embedding of `backend/scripts/cms_quality_ingest/materialize_crid.py`,
the CRID (Clinical Reporting Integrity Divergence) materialization engine.

The engine is one SQL statement built from CTEs; each CTE is translated into a
Lean function over lists of records.  Naming map (spec term = source term):
facility_id = `ccn`, period_id = `extract_id` (ordered via `extract_id::int`,
modelled as `ℕ`), region_code = `state`, quality family = MDS
(measure codes 410/453/407/409), utilization family = Claims (codes 551/552).

SQL `NUMERIC` values are modelled as exact rationals (`ℚ`); SQL `NULL` as
`Option.none`.  Postgres `STDDEV_POP` returns the square root of the
population variance, computed by the database engine to finite precision; the
square root is therefore a parameter `sq : ℚ → ℚ` applied to the exact
population variance, so every theorem below holds for any square-root
implementation (hypotheses on `sq` are stated explicitly where a claim needs
them).  All other arithmetic in the engine is exact in `ℚ`.
-/

namespace Crid

/-- A row of `gold.nh_quality_mds` as read by the `mds_base` CTE. -/
structure MdsRow where
  ccn : String
  extract_id : ℕ
  as_of_date : ℕ
  state : String
  measure_code : String
  four_quarter_avg : Option ℚ
  has_suppression : Bool
  deriving DecidableEq

/-- A row of `gold.nh_quality_claims` as read by the `claims_base` CTE. -/
structure ClaimsRow where
  ccn : String
  extract_id : ℕ
  measure_code : String
  adjusted_score : Option ℚ
  has_suppression : Bool
  deriving DecidableEq

/-- A row of `gold.nh_measure_definitions` as read by the `measure_weights` CTE. -/
structure WeightRow where
  measure_code : String
  crid_weight : ℚ
  used_in_crid : Bool
  deriving DecidableEq

/-- SQL multiplication on nullable numerics: NULL propagates. -/
def omul (a b : Option ℚ) : Option ℚ :=
  match a, b with
  | some x, some y => some (x * y)
  | _, _ => none

/-- SQL addition on nullable numerics: NULL propagates. -/
def oadd (a b : Option ℚ) : Option ℚ :=
  match a, b with
  | some x, some y => some (x + y)
  | _, _ => none

/-- SQL `MAX` over a set of non-NULL numerics: NULL on the empty set,
otherwise the largest value. -/
def sqlMax (xs : List ℚ) : Option ℚ :=
  xs.foldl (fun acc x =>
    match acc with
    | none => some x
    | some a => some (if a ≤ x then x else a)) none

/-- CTE `measure_weights`: rows of `gold.nh_measure_definitions` with
`used_in_crid = TRUE`. -/
def measure_weights (ws : List WeightRow) : List WeightRow :=
  ws.filter (fun w => w.used_in_crid)

/-- `MAX(CASE WHEN measure_code = c THEN crid_weight END)` from the
`weight_values` CTE: SQL `MAX` ignores NULLs and returns NULL on an empty set,
so a missing code yields `none` and duplicate definitions silently take the
largest weight. -/
def weightFor (ws : List WeightRow) (c : String) : Option ℚ :=
  sqlMax (((measure_weights ws).filter (fun w => decide (w.measure_code = c))).map
    (fun w => w.crid_weight))

/-- The single row produced by the `weight_values` CTE. -/
structure WeightValues where
  w_410 : Option ℚ
  w_453 : Option ℚ
  w_407 : Option ℚ
  w_409 : Option ℚ
  w_551 : Option ℚ
  w_552 : Option ℚ
  deriving DecidableEq

/-- CTE `weight_values` (an aggregate without GROUP BY always yields one row,
even when `measure_weights` is empty). -/
def weight_values (ws : List WeightRow) : WeightValues :=
  { w_410 := weightFor ws "410"
    w_453 := weightFor ws "453"
    w_407 := weightFor ws "407"
    w_409 := weightFor ws "409"
    w_551 := weightFor ws "551"
    w_552 := weightFor ws "552" }

/-- The four MDS (quality-family) measure codes. -/
def qualityCodes : List String := ["410", "453", "407", "409"]

/-- The two Claims (utilization-family) measure codes. -/
def claimsCodes : List String := ["551", "552"]

/-- GROUP BY key of the `mds_base` CTE. -/
structure MdsKey where
  ccn : String
  extract_id : ℕ
  as_of_date : ℕ
  state : String
  deriving DecidableEq

/-- Output row of the `mds_base` CTE. -/
structure MdsBase where
  ccn : String
  extract_id : ℕ
  as_of_date : ℕ
  state : String
  measure_410 : Option ℚ
  measure_453 : Option ℚ
  measure_407 : Option ℚ
  measure_409 : Option ℚ
  sup_410 : ℕ
  sup_453 : ℕ
  sup_407 : ℕ
  sup_409 : ℕ
  deriving DecidableEq

/-- The `WHERE m.measure_code IN ('410','453','407','409')` restriction. -/
def mdsRowsIn (rows : List MdsRow) : List MdsRow :=
  rows.filter (fun r => decide (r.measure_code ∈ qualityCodes))

/-- GROUP BY key of an `mds_base` input row. -/
def mdsKeyOf (r : MdsRow) : MdsKey :=
  ⟨r.ccn, r.extract_id, r.as_of_date, r.state⟩

/-- The group of quality rows sharing a GROUP BY key. -/
def mdsGroup (rows : List MdsRow) (k : MdsKey) : List MdsRow :=
  (mdsRowsIn rows).filter (fun r => decide (mdsKeyOf r = k))

/-- `MAX(CASE WHEN m.measure_code = c THEN m.four_quarter_avg END)`:
the maximum of the non-NULL values of code `c` within the group. -/
def mdsPivotVal (g : List MdsRow) (c : String) : Option ℚ :=
  sqlMax ((g.filter (fun r => decide (r.measure_code = c))).filterMap
    (fun r => r.four_quarter_avg))

/-- `MAX(CASE WHEN m.measure_code = c AND m.has_suppression THEN 1 ELSE 0 END)`. -/
def mdsPivotSup (g : List MdsRow) (c : String) : ℕ :=
  if g.any (fun r => decide (r.measure_code = c) && r.has_suppression) then 1 else 0

/-- CTE `mds_base`: pivot the quality measures per
(ccn, extract_id, as_of_date, state) group. -/
def mds_base (rows : List MdsRow) : List MdsBase :=
  (((mdsRowsIn rows).map mdsKeyOf).dedup).map (fun k =>
    let g := mdsGroup rows k
    { ccn := k.ccn, extract_id := k.extract_id, as_of_date := k.as_of_date, state := k.state
      measure_410 := mdsPivotVal g "410"
      measure_453 := mdsPivotVal g "453"
      measure_407 := mdsPivotVal g "407"
      measure_409 := mdsPivotVal g "409"
      sup_410 := mdsPivotSup g "410"
      sup_453 := mdsPivotSup g "453"
      sup_407 := mdsPivotSup g "407"
      sup_409 := mdsPivotSup g "409" })

/-- GROUP BY key of the `claims_base` CTE. -/
structure ClaimsKey where
  ccn : String
  extract_id : ℕ
  deriving DecidableEq

/-- Output row of the `claims_base` CTE. -/
structure ClaimsBase where
  ccn : String
  extract_id : ℕ
  measure_551 : Option ℚ
  measure_552 : Option ℚ
  sup_551 : ℕ
  sup_552 : ℕ
  deriving DecidableEq

/-- The `WHERE c.measure_code IN ('551','552')` restriction. -/
def claimsRowsIn (rows : List ClaimsRow) : List ClaimsRow :=
  rows.filter (fun r => decide (r.measure_code ∈ claimsCodes))

/-- GROUP BY key of a `claims_base` input row. -/
def claimsKeyOf (r : ClaimsRow) : ClaimsKey :=
  ⟨r.ccn, r.extract_id⟩

/-- The group of claims rows sharing a GROUP BY key. -/
def claimsGroup (rows : List ClaimsRow) (k : ClaimsKey) : List ClaimsRow :=
  (claimsRowsIn rows).filter (fun r => decide (claimsKeyOf r = k))

/-- `MAX(CASE WHEN c.measure_code = c THEN c.adjusted_score END)`. -/
def claimsPivotVal (g : List ClaimsRow) (c : String) : Option ℚ :=
  sqlMax ((g.filter (fun r => decide (r.measure_code = c))).filterMap
    (fun r => r.adjusted_score))

/-- `MAX(CASE WHEN c.measure_code = c AND c.has_suppression THEN 1 ELSE 0 END)`. -/
def claimsPivotSup (g : List ClaimsRow) (c : String) : ℕ :=
  if g.any (fun r => decide (r.measure_code = c) && r.has_suppression) then 1 else 0

/-- CTE `claims_base`: pivot the utilization measures per (ccn, extract_id). -/
def claims_base (rows : List ClaimsRow) : List ClaimsBase :=
  (((claimsRowsIn rows).map claimsKeyOf).dedup).map (fun k =>
    let g := claimsGroup rows k
    { ccn := k.ccn, extract_id := k.extract_id
      measure_551 := claimsPivotVal g "551"
      measure_552 := claimsPivotVal g "552"
      sup_551 := claimsPivotSup g "551"
      sup_552 := claimsPivotSup g "552" })

/-- `CASE WHEN v IS NOT NULL AND s = 0 THEN 1 ELSE 0 END`: one presence bit of
`measures_present`. -/
def presentBit (v : Option ℚ) (s : ℕ) : ℕ :=
  if v.isSome ∧ s = 0 then 1 else 0

/-- Output row of the `all_facilities` CTE. -/
structure Facility where
  ccn : String
  extract_id : ℕ
  as_of_date : ℕ
  state : String
  measure_410 : Option ℚ
  measure_453 : Option ℚ
  measure_407 : Option ℚ
  measure_409 : Option ℚ
  measure_551 : Option ℚ
  measure_552 : Option ℚ
  measures_present : ℕ
  measures_suppressed : ℕ
  is_complete : Bool
  deriving DecidableEq

/-- The SELECT expression list of the `all_facilities` CTE, applied to one
`mds_base` row `m` and its LEFT JOIN partner from `claims_base`. -/
def facBuild (cb : List ClaimsBase) (m : MdsBase) : Facility :=
    let c? := cb.find?
      (fun c => decide (c.ccn = m.ccn ∧ c.extract_id = m.extract_id))
    let m551 : Option ℚ := c?.bind (fun c => c.measure_551)
    let m552 : Option ℚ := c?.bind (fun c => c.measure_552)
    let s551 : ℕ := match c? with | some c => c.sup_551 | none => 0
    let s552 : ℕ := match c? with | some c => c.sup_552 | none => 0
    { ccn := m.ccn, extract_id := m.extract_id, as_of_date := m.as_of_date, state := m.state
      measure_410 := m.measure_410
      measure_453 := m.measure_453
      measure_407 := m.measure_407
      measure_409 := m.measure_409
      measure_551 := m551
      measure_552 := m552
      measures_present :=
        presentBit m.measure_410 m.sup_410 + presentBit m.measure_453 m.sup_453 +
        presentBit m.measure_407 m.sup_407 + presentBit m.measure_409 m.sup_409 +
        presentBit m551 s551 + presentBit m552 s552
      measures_suppressed :=
        m.sup_410 + m.sup_453 + m.sup_407 + m.sup_409 + s551 + s552
      is_complete := decide (m.measure_410.isSome ∧ m.sup_410 = 0 ∧
        m.measure_453.isSome ∧ m.sup_453 = 0 ∧
        m.measure_407.isSome ∧ m.sup_407 = 0 ∧
        m.measure_409.isSome ∧ m.sup_409 = 0 ∧
        m551.isSome ∧ s551 = 0 ∧ m552.isSome ∧ s552 = 0) }

/-- CTE `all_facilities`: `mds_base` LEFT JOIN `claims_base` on
(ccn, extract_id), plus the completeness computation.  `claims_base` keys are
unique by construction, so the left join is a lookup. -/
def all_facilities (mrows : List MdsRow) (crows : List ClaimsRow) : List Facility :=
  (mds_base mrows).map (facBuild (claims_base crows))

/-- Postgres `ROUND(q, 2)` for the nonnegative numerics appearing here
(round half away from zero, which on nonnegative input is round half up). -/
def round2 (q : ℚ) : ℚ :=
  (⌊q * 100 + 1 / 2⌋ : ℚ) / 100

/-- Output row of the `with_composites` CTE (`SELECT f.*` plus three columns). -/
structure Composite extends Facility where
  completeness_pct : ℚ
  mds_composite : Option ℚ
  claims_utilization : Option ℚ
  deriving DecidableEq

/-- The SELECT expression list of the `with_composites` CTE applied to one
`all_facilities` row, given the single `weight_values` row `w`. -/
def compBuild (w : WeightValues) (f : Facility) : Composite :=
    { toFacility := f
      completeness_pct := round2 ((f.measures_present : ℚ) * 100 / 6)
      mds_composite :=
        if f.is_complete then
          oadd (oadd (oadd (omul w.w_410 f.measure_410) (omul w.w_453 f.measure_453))
            (omul w.w_407 f.measure_407)) (omul w.w_409 f.measure_409)
        else none
      claims_utilization :=
        if f.is_complete then
          oadd (omul w.w_551 f.measure_551) (omul w.w_552 f.measure_552)
        else none }

/-- CTE `with_composites`: completeness percentage and the two weighted
composites, computed only for complete facilities (CROSS JOIN with the single
`weight_values` row).  A NULL weight propagates into the composite. -/
def with_composites (mrows : List MdsRow) (crows : List ClaimsRow)
    (wrows : List WeightRow) : List Composite :=
  (all_facilities mrows crows).map (compBuild (weight_values wrows))

/-- GROUP BY key of the `state_stats` CTE. -/
structure StateKey where
  state : String
  extract_id : ℕ
  deriving DecidableEq

/-- Output row of the `state_stats` CTE. -/
structure StateStats where
  state : String
  extract_id : ℕ
  facility_count : ℕ
  mds_mean : Option ℚ
  mds_stddev : Option ℚ
  claims_mean : Option ℚ
  claims_stddev : Option ℚ
  deriving DecidableEq

/-- SQL `AVG`: ignores NULL inputs, NULL on an empty set of non-NULL inputs. -/
def avg (xs : List ℚ) : Option ℚ :=
  if xs = [] then none else some (xs.sum / xs.length)

/-- Population variance (divide by N, not N - 1). -/
def var_pop (xs : List ℚ) : ℚ :=
  (xs.map (fun x => (x - xs.sum / xs.length) ^ 2)).sum / xs.length

/-- SQL `STDDEV_POP`: square root of the population variance of the non-NULL
inputs, NULL when there is no non-NULL input; `sq` is the square-root
implementation of the database engine. -/
def stddev_pop (sq : ℚ → ℚ) (xs : List ℚ) : Option ℚ :=
  if xs = [] then none else some (sq (var_pop xs))

/-- GROUP BY key of a `with_composites` row. -/
def stateKeyOf (f : Composite) : StateKey :=
  ⟨f.state, f.extract_id⟩

/-- The peer cohort of a (state, extract_id) key: the complete facilities of
that state and period (the `WHERE is_complete = TRUE` restriction). -/
def cohort (cs : List Composite) (k : StateKey) : List Composite :=
  cs.filter (fun f => f.is_complete && decide (f.state = k.state ∧ f.extract_id = k.extract_id))

/-- One `state_stats` output row: COUNT/AVG/STDDEV_POP over the cohort. -/
def statsFor (sq : ℚ → ℚ) (cs : List Composite) (k : StateKey) : StateStats :=
  let g := cohort cs k
  { state := k.state
    extract_id := k.extract_id
    facility_count := g.length
    mds_mean := avg (g.filterMap (fun f => f.mds_composite))
    mds_stddev := stddev_pop sq (g.filterMap (fun f => f.mds_composite))
    claims_mean := avg (g.filterMap (fun f => f.claims_utilization))
    claims_stddev := stddev_pop sq (g.filterMap (fun f => f.claims_utilization)) }

/-- CTE `state_stats`: one aggregate row per (state, extract_id) group that
contains at least one complete facility. -/
def state_stats (sq : ℚ → ℚ) (cs : List Composite) : List StateStats :=
  (((cs.filter (fun f => f.is_complete)).map stateKeyOf).dedup).map (statsFor sq cs)

/-- Output row of the `with_z_scores` CTE.  Field defaults only ease the
construction of literal records in concrete scenarios; the pipeline always
sets every field explicitly. -/
structure ZRow where
  ccn : String := ""
  extract_id : ℕ := 0
  as_of_date : ℕ := 0
  state : String := ""
  mds_composite : Option ℚ := none
  claims_utilization : Option ℚ := none
  measure_410 : Option ℚ := none
  measure_453 : Option ℚ := none
  measure_407 : Option ℚ := none
  measure_409 : Option ℚ := none
  measure_551 : Option ℚ := none
  measure_552 : Option ℚ := none
  measures_present : ℕ := 0
  measures_suppressed : ℕ := 0
  completeness_pct : ℚ := 0
  is_complete : Bool := false
  state_facility_count : Option ℕ := none
  state_mds_mean : Option ℚ := none
  state_mds_stddev : Option ℚ := none
  state_claims_mean : Option ℚ := none
  state_claims_stddev : Option ℚ := none
  is_small_state : Bool := true
  mds_z_score : Option ℚ := none
  claims_z_score : Option ℚ := none
  deriving DecidableEq

/-- The z-score gate `f.is_complete AND s.facility_count >= 10 AND sd(s) > 0`
under SQL three-valued logic: a NULL join partner or a NULL stddev makes the
CASE condition non-TRUE, selecting the ELSE (NULL) branch. -/
def zGate (isc : Bool) (s? : Option StateStats) (sd : StateStats → Option ℚ) : Bool :=
  isc && (match s? with
    | some s => decide (10 ≤ s.facility_count) &&
        (match sd s with
          | some d => decide (0 < d)
          | none => false)
    | none => false)

/-- `(x - m) / d` on nullable numerics: NULL propagates. -/
def zValue (comp mean sd : Option ℚ) : Option ℚ :=
  match comp, mean, sd with
  | some x, some m, some d => some ((x - m) / d)
  | _, _, _ => none

/-- The SELECT expression list of the `with_z_scores` CTE applied to one
`with_composites` row `f`, with `stats` the `state_stats` rows joined against. -/
def zBuild (stats : List StateStats) (f : Composite) : ZRow :=
    let s? := stats.find? (fun s => decide (s.state = f.state ∧ s.extract_id = f.extract_id))
    { ccn := f.ccn, extract_id := f.extract_id, as_of_date := f.as_of_date, state := f.state
      mds_composite := f.mds_composite
      claims_utilization := f.claims_utilization
      measure_410 := f.measure_410
      measure_453 := f.measure_453
      measure_407 := f.measure_407
      measure_409 := f.measure_409
      measure_551 := f.measure_551
      measure_552 := f.measure_552
      measures_present := f.measures_present
      measures_suppressed := f.measures_suppressed
      completeness_pct := f.completeness_pct
      is_complete := f.is_complete
      state_facility_count := s?.map (fun s => s.facility_count)
      state_mds_mean := s?.bind (fun s => s.mds_mean)
      state_mds_stddev := s?.bind (fun s => s.mds_stddev)
      state_claims_mean := s?.bind (fun s => s.claims_mean)
      state_claims_stddev := s?.bind (fun s => s.claims_stddev)
      is_small_state := decide ((match s? with | some s => s.facility_count | none => 0) < 10)
      mds_z_score :=
        if zGate f.is_complete s? (fun s => s.mds_stddev) then
          zValue f.mds_composite (s?.bind fun s => s.mds_mean) (s?.bind fun s => s.mds_stddev)
        else none
      claims_z_score :=
        if zGate f.is_complete s? (fun s => s.claims_stddev) then
          zValue f.claims_utilization (s?.bind fun s => s.claims_mean)
            (s?.bind fun s => s.claims_stddev)
        else none }

/-- CTE `with_z_scores`: LEFT JOIN of `with_composites` with `state_stats` on
(state, extract_id) (keys of `state_stats` are distinct, so the join is a
lookup), plus the small-state flag and the two gated z-scores. -/
def with_z_scores (sq : ℚ → ℚ) (mrows : List MdsRow) (crows : List ClaimsRow)
    (wrows : List WeightRow) : List ZRow :=
  (with_composites mrows crows wrows).map
    (zBuild (state_stats sq (with_composites mrows crows wrows)))

/-- `mds_z_score - claims_z_score` when both are non-NULL, else NULL: this is
both the `crid_value` expression and the window-function input. -/
def cridOf (z : ZRow) : Option ℚ :=
  match z.mds_z_score, z.claims_z_score with
  | some a, some b => some (a - b)
  | _, _ => none

/-- The frame `PARTITION BY ccn ORDER BY extract_id::int ROWS BETWEEN p
PRECEDING AND CURRENT ROW` for row `r`: among the rows of `r`'s facility with
period key at most `r`'s, those with at most `p` later such rows (i.e. the
current period and the `p` immediately preceding periods present for the
facility).  When a facility has duplicate period keys the SQL frame is
nondeterministic (and the final INSERT would violate the UNIQUE (ccn,
extract_id) constraint); this rank-based rendering is the deterministic
reading for distinct period keys. -/
def windowRows (zs : List ZRow) (c : String) (e : ℕ) (p : ℕ) : List ZRow :=
  (zs.filter (fun x => decide (x.ccn = c ∧ x.extract_id ≤ e))).filter (fun x =>
    decide (((zs.filter (fun x => decide (x.ccn = c ∧ x.extract_id ≤ e))).filter
      (fun y => decide (x.extract_id < y.extract_id))).length ≤ p))

/-- Output row of the `with_crid` CTE / the final INSERT SELECT.  The `flags`
field is `[]` at the `with_crid` stage and is filled by the INSERT SELECT
(the persisted table keeps every field below except `is_complete` and
`is_small_state`, which feed only the flags). -/
structure CridRow where
  ccn : String := ""
  extract_id : ℕ := 0
  as_of_date : ℕ := 0
  state : String := ""
  mds_composite : Option ℚ := none
  claims_utilization : Option ℚ := none
  measure_410 : Option ℚ := none
  measure_453 : Option ℚ := none
  measure_407 : Option ℚ := none
  measure_409 : Option ℚ := none
  measure_551 : Option ℚ := none
  measure_552 : Option ℚ := none
  measures_present : ℕ := 0
  measures_suppressed : ℕ := 0
  completeness_pct : ℚ := 0
  is_complete : Bool := false
  state_facility_count : Option ℕ := none
  state_mds_mean : Option ℚ := none
  state_mds_stddev : Option ℚ := none
  state_claims_mean : Option ℚ := none
  state_claims_stddev : Option ℚ := none
  is_small_state : Bool := true
  mds_z_score : Option ℚ := none
  claims_z_score : Option ℚ := none
  crid_value : Option ℚ := none
  crid_volatility : Option ℚ := none
  flags : List String := []
  deriving DecidableEq

/-- The SELECT expression list of the `with_crid` CTE (`SELECT *` from
`with_z_scores` plus `crid_value` and the rolling `crid_volatility`) applied
to one row `z` of `zs`.  `STDDEV_POP` over the window frame ignores the NULL
`mds_z_score - claims_z_score` inputs of the frame, and the surrounding CASE
makes the volatility NULL whenever the current row's z-scores are. -/
def cridBuild (sq : ℚ → ℚ) (p : ℕ) (zs : List ZRow) (z : ZRow) : CridRow :=
    { ccn := z.ccn, extract_id := z.extract_id, as_of_date := z.as_of_date, state := z.state
      mds_composite := z.mds_composite
      claims_utilization := z.claims_utilization
      measure_410 := z.measure_410
      measure_453 := z.measure_453
      measure_407 := z.measure_407
      measure_409 := z.measure_409
      measure_551 := z.measure_551
      measure_552 := z.measure_552
      measures_present := z.measures_present
      measures_suppressed := z.measures_suppressed
      completeness_pct := z.completeness_pct
      is_complete := z.is_complete
      state_facility_count := z.state_facility_count
      state_mds_mean := z.state_mds_mean
      state_mds_stddev := z.state_mds_stddev
      state_claims_mean := z.state_claims_mean
      state_claims_stddev := z.state_claims_stddev
      is_small_state := z.is_small_state
      mds_z_score := z.mds_z_score
      claims_z_score := z.claims_z_score
      crid_value := cridOf z
      crid_volatility :=
        match z.mds_z_score, z.claims_z_score with
        | some _, some _ =>
          stddev_pop sq ((windowRows zs z.ccn z.extract_id p).filterMap cridOf)
        | _, _ => none
      flags := [] }

/-- CTE `with_crid` (see `cridBuild` for the per-row SELECT expressions). -/
def with_crid (sq : ℚ → ℚ) (p : ℕ) (zs : List ZRow) : List CridRow :=
  zs.map (cridBuild sq p zs)

/-- `CASE WHEN b THEN f END` for a flag literal. -/
def flagIf (b : Bool) (f : String) : Option String :=
  if b then some f else none

/-- SQL `v > t` under three-valued logic: false when `v` is NULL. -/
def ogt (v : Option ℚ) (t : ℚ) : Bool :=
  match v with
  | some x => decide (t < x)
  | none => false

/-- SQL `v < t` under three-valued logic: false when `v` is NULL. -/
def olt (v : Option ℚ) (t : ℚ) : Bool :=
  match v with
  | some x => decide (x < t)
  | none => false

/-- `ABS(a) > 2 AND ABS(b) < 1` under three-valued logic: a NULL operand never
lets the conjunction become TRUE. -/
def outlierCond (a b : Option ℚ) : Bool :=
  match a, b with
  | some x, some y => decide (2 < |x| ∧ |y| < 1)
  | _, _ => false

/-- The `ARRAY_REMOVE(ARRAY[...], NULL)` flags expression of the final INSERT
SELECT: each CASE contributes an optional tag; NULL entries are removed. -/
def flagsOf (r : CridRow) : List String :=
  ([flagIf (!r.is_complete) "INCOMPLETE_MEASURES",
    flagIf r.is_small_state "SMALL_STATE",
    flagIf (ogt r.crid_value 2) "HIGH_POSITIVE_CRID",
    flagIf (olt r.crid_value (-2)) "HIGH_NEGATIVE_CRID",
    flagIf (ogt r.crid_value 3) "EXTREME_POSITIVE_CRID",
    flagIf (olt r.crid_value (-3)) "EXTREME_NEGATIVE_CRID",
    flagIf (ogt r.crid_volatility (3 / 2)) "HIGH_VOLATILITY",
    flagIf (outlierCond r.mds_z_score r.claims_z_score) "MDS_OUTLIER",
    flagIf (outlierCond r.claims_z_score r.mds_z_score) "CLAIMS_OUTLIER"]).filterMap id

/-- The final INSERT SELECT applied to one `with_crid` row: attach the
computed flags array. -/
def insertBuild (r : CridRow) : CridRow :=
  { r with flags := flagsOf r }

/-- The full materialization query: the rows inserted into
`metrics.crid_monthly` by `materialize_crid` for a given volatility window
(`window_preceding = volatility_window - 1`). -/
def crid_monthly (sq : ℚ → ℚ) (volatility_window : ℕ) (mrows : List MdsRow)
    (crows : List ClaimsRow) (wrows : List WeightRow) : List CridRow :=
  (with_crid sq (volatility_window - 1) (with_z_scores sq mrows crows wrows)).map
    insertBuild

/-- The database state visible to this script: the `metrics.crid_monthly`
table (`none` when the table does not exist). -/
structure DbState where
  crid_monthly_table : Option (List CridRow)
  deriving DecidableEq

/-- The `main()` materialization path, modelled at commit granularity.
`argparse` (`--volatility-window`, `type=int, choices=[3, 4]`) rejects any
other window before the database connection is opened; `materialize_crid`
re-checks the same condition before building any SQL.  On the happy path
`drop_and_create_table` executes DROP TABLE + CREATE TABLE and **commits**
(its own `conn.commit()`), after which `materialize_crid` runs the INSERT in
a separate transaction; `transform_ok = false` models a failure inside that
INSERT, whose rollback restores the empty freshly created table, not the
dropped previous one.  The pair returned is (process outcome, final committed
database state). -/
def main_run (sq : ℚ → ℚ) (volatility_window : ℤ) (transform_ok : Bool)
    (mrows : List MdsRow) (crows : List ClaimsRow) (wrows : List WeightRow)
    (db : DbState) : Except String Unit × DbState :=
  if volatility_window = 3 ∨ volatility_window = 4 then
    let dropped : DbState := ⟨some []⟩
    if transform_ok then
      (Except.ok (),
        ⟨some (crid_monthly sq volatility_window.toNat mrows crows wrows)⟩)
    else
      (Except.error "materialization failed", dropped)
  else
    (Except.error "volatility_window must be 3 or 4", db)

/-! ### Concrete datasets for the testable scenarios

A ten-facility single-period cohort in state "TX" (the minimum cohort that
passes the `MIN_COHORT = 10` gate), built so that both composite families have
population variance 1; plus the smaller inputs used by the boundary and
error-handling scenarios.  The `L...` lists are the literal values the
pipeline stages produce on these inputs, proved equal below. -/

def exW : List WeightRow :=
  [⟨"410", 1, true⟩, ⟨"453", 1, true⟩, ⟨"407", 1, true⟩,
   ⟨"409", 1, true⟩, ⟨"551", 1, true⟩, ⟨"552", 1, true⟩]

/-- `exW` with the definition for code 410 removed. -/
def exW5 : List WeightRow :=
  [⟨"453", 1, true⟩, ⟨"407", 1, true⟩,
   ⟨"409", 1, true⟩, ⟨"551", 1, true⟩, ⟨"552", 1, true⟩]

def exMof (c : String) (a : ℚ) : List MdsRow :=
  [⟨c, 1, 1, "TX", "410", some a, false⟩,
   ⟨c, 1, 1, "TX", "453", some 0, false⟩,
   ⟨c, 1, 1, "TX", "407", some 0, false⟩,
   ⟨c, 1, 1, "TX", "409", some 0, false⟩]

def exM : List MdsRow :=
  exMof "a" 0 ++ exMof "b" 0 ++ exMof "c" 0 ++ exMof "d" 0 ++ exMof "e" 0 ++
  exMof "f" 2 ++ exMof "g" 2 ++ exMof "h" 2 ++ exMof "i" 2 ++ exMof "j" 2

def exCof (c : String) (b : ℚ) : List ClaimsRow :=
  [⟨c, 1, "551", some b, false⟩, ⟨c, 1, "552", some 0, false⟩]

def exC : List ClaimsRow :=
  exCof "a" 0 ++ exCof "b" 0 ++ exCof "c" 0 ++ exCof "d" 0 ++ exCof "e" 0 ++
  exCof "f" 2 ++ exCof "g" 2 ++ exCof "h" 2 ++ exCof "i" 2 ++ exCof "j" 2

def LfacOf (c : String) (a b : ℚ) : Facility :=
  ⟨c, 1, 1, "TX", some a, some 0, some 0, some 0, some b, some 0, 6, 0, true⟩

def Lfac : List Facility :=
  [LfacOf "a" 0 0, LfacOf "b" 0 0, LfacOf "c" 0 0, LfacOf "d" 0 0, LfacOf "e" 0 0,
   LfacOf "f" 2 2, LfacOf "g" 2 2, LfacOf "h" 2 2, LfacOf "i" 2 2, LfacOf "j" 2 2]

def LcompOf (c : String) (a b : ℚ) : Composite :=
  { toFacility := LfacOf c a b
    completeness_pct := 100
    mds_composite := some a
    claims_utilization := some b }

def Lcomp : List Composite :=
  [LcompOf "a" 0 0, LcompOf "b" 0 0, LcompOf "c" 0 0, LcompOf "d" 0 0, LcompOf "e" 0 0,
   LcompOf "f" 2 2, LcompOf "g" 2 2, LcompOf "h" 2 2, LcompOf "i" 2 2, LcompOf "j" 2 2]

def sTX : StateStats := ⟨"TX", 1, 10, some 1, some 1, some 1, some 1⟩

def LzOf (c : String) (ab z : ℚ) : ZRow :=
  { ccn := c, extract_id := 1, as_of_date := 1, state := "TX",
    mds_composite := some ab, claims_utilization := some ab,
    measure_410 := some ab, measure_453 := some 0, measure_407 := some 0,
    measure_409 := some 0, measure_551 := some ab, measure_552 := some 0,
    measures_present := 6, measures_suppressed := 0, completeness_pct := 100,
    is_complete := true, state_facility_count := some 10,
    state_mds_mean := some 1, state_mds_stddev := some 1,
    state_claims_mean := some 1, state_claims_stddev := some 1,
    is_small_state := false, mds_z_score := some z, claims_z_score := some z }

def Lz : List ZRow :=
  [LzOf "a" 0 (-1), LzOf "b" 0 (-1), LzOf "c" 0 (-1), LzOf "d" 0 (-1), LzOf "e" 0 (-1),
   LzOf "f" 2 1, LzOf "g" 2 1, LzOf "h" 2 1, LzOf "i" 2 1, LzOf "j" 2 1]

def LcridOf (c : String) (ab z : ℚ) : CridRow :=
  { ccn := c, extract_id := 1, as_of_date := 1, state := "TX",
    mds_composite := some ab, claims_utilization := some ab,
    measure_410 := some ab, measure_453 := some 0, measure_407 := some 0,
    measure_409 := some 0, measure_551 := some ab, measure_552 := some 0,
    measures_present := 6, measures_suppressed := 0, completeness_pct := 100,
    is_complete := true, state_facility_count := some 10,
    state_mds_mean := some 1, state_mds_stddev := some 1,
    state_claims_mean := some 1, state_claims_stddev := some 1,
    is_small_state := false, mds_z_score := some z, claims_z_score := some z,
    crid_value := some 0, crid_volatility := some 0, flags := [] }

def LOUT : List CridRow :=
  [LcridOf "a" 0 (-1), LcridOf "b" 0 (-1), LcridOf "c" 0 (-1), LcridOf "d" 0 (-1),
   LcridOf "e" 0 (-1), LcridOf "f" 2 1, LcridOf "g" 2 1, LcridOf "h" 2 1,
   LcridOf "i" 2 1, LcridOf "j" 2 1]

/-- Three consecutive valid periods of one facility with CRID values
0.5, 1.0, 1.5 (the volatility-window scenario of the spec). -/
def exZ3 : List ZRow :=
  [{ ccn := "X", extract_id := 1, mds_z_score := some (1 / 2), claims_z_score := some 0 },
   { ccn := "X", extract_id := 2, mds_z_score := some 1, claims_z_score := some 0 },
   { ccn := "X", extract_id := 3, mds_z_score := some (3 / 2), claims_z_score := some 0 }]

/-- The third (current) period row of `exZ3`. -/
def zX3 : ZRow :=
  { ccn := "X", extract_id := 3, mds_z_score := some (3 / 2), claims_z_score := some 0 }

/-- The same scenario with the middle period's CRID value NULL. -/
def exZ3null : List ZRow :=
  [{ ccn := "X", extract_id := 1, mds_z_score := some (1 / 2), claims_z_score := some 0 },
   { ccn := "X", extract_id := 2, mds_z_score := none, claims_z_score := some 0 },
   { ccn := "X", extract_id := 3, mds_z_score := some (3 / 2), claims_z_score := some 0 }]

/-- One complete facility alone in state "WY": an 8-or-fewer (here 1) complete
facility cohort. -/
def exSM : List MdsRow := exMof "s" 0
def exSC : List ClaimsRow := exCof "s" 0

/-- A facility with measure 409 absent (not suppressed, simply no row). -/
def exMissM : List MdsRow :=
  [⟨"m", 1, 1, "UT", "410", some 1, false⟩,
   ⟨"m", 1, 1, "UT", "453", some 1, false⟩,
   ⟨"m", 1, 1, "UT", "407", some 1, false⟩]

def exMissC : List ClaimsRow :=
  [⟨"m", 1, "551", some 1, false⟩, ⟨"m", 1, "552", some 1, false⟩]

/-- A facility whose measure 410 is present with a value but suppressed. -/
def exSupM : List MdsRow :=
  [⟨"m", 1, 1, "UT", "410", some 1, true⟩,
   ⟨"m", 1, 1, "UT", "453", some 1, false⟩,
   ⟨"m", 1, 1, "UT", "407", some 1, false⟩,
   ⟨"m", 1, 1, "UT", "409", some 1, false⟩]

/-- A facility-period that appears only in the utilization (claims) family. -/
def exUtilOnlyC : List ClaimsRow :=
  [⟨"u", 1, "551", some 1, false⟩]

/-- A weight table with two (duplicate) definitions for code 410. -/
def exWdup : List WeightRow :=
  [⟨"410", 1, true⟩, ⟨"410", 2, true⟩]

/-- A previous output row, standing for the pre-existing materialization in
the atomicity scenario. -/
def rPrev : CridRow := { ccn := "p" }

/-- The single output row of the small-cohort scenario (`exSM`/`exSC`). -/
def LSmall : CridRow :=
  { ccn := "s", extract_id := 1, as_of_date := 1, state := "TX",
    mds_composite := some 0, claims_utilization := some 0,
    measure_410 := some 0, measure_453 := some 0, measure_407 := some 0,
    measure_409 := some 0, measure_551 := some 0, measure_552 := some 0,
    measures_present := 6, measures_suppressed := 0, completeness_pct := 100,
    is_complete := true, state_facility_count := some 1,
    state_mds_mean := some 0, state_mds_stddev := some 0,
    state_claims_mean := some 0, state_claims_stddev := some 0,
    is_small_state := true, mds_z_score := none, claims_z_score := none,
    crid_value := none, crid_volatility := none, flags := ["SMALL_STATE"] }

/-- Output rows of the missing-410-weight run (`exM`/`exC` with `exW5`): the
NULL weight nulls every quality composite, hence every CRID, silently. -/
def L5Of (c : String) (ab zu : ℚ) : CridRow :=
  { ccn := c, extract_id := 1, as_of_date := 1, state := "TX",
    mds_composite := none, claims_utilization := some ab,
    measure_410 := some ab, measure_453 := some 0, measure_407 := some 0,
    measure_409 := some 0, measure_551 := some ab, measure_552 := some 0,
    measures_present := 6, measures_suppressed := 0, completeness_pct := 100,
    is_complete := true, state_facility_count := some 10,
    state_mds_mean := none, state_mds_stddev := none,
    state_claims_mean := some 1, state_claims_stddev := some 1,
    is_small_state := false, mds_z_score := none, claims_z_score := some zu,
    crid_value := none, crid_volatility := none, flags := [] }

def LOUT5 : List CridRow :=
  [L5Of "a" 0 (-1), L5Of "b" 0 (-1), L5Of "c" 0 (-1), L5Of "d" 0 (-1),
   L5Of "e" 0 (-1), L5Of "f" 2 1, L5Of "g" 2 1, L5Of "h" 2 1,
   L5Of "i" 2 1, L5Of "j" 2 1]

/-- Literal `with_composites` rows of the missing-measure scenario. -/
def CompMiss : Composite :=
  { toFacility := ⟨"m", 1, 1, "UT", some 1, some 1, some 1, none, some 1, some 1, 5, 0, false⟩
    completeness_pct := 8333 / 100
    mds_composite := none
    claims_utilization := none }

/-- Literal `with_composites` row of the suppressed-but-present scenario. -/
def CompSup : Composite :=
  { toFacility := ⟨"m", 1, 1, "UT", some 1, some 1, some 1, some 1, some 1, some 1, 5, 1, false⟩
    completeness_pct := 8333 / 100
    mds_composite := none
    claims_utilization := none }

/-- Literal `with_composites` rows of the missing-410-weight run. -/
def Lcomp5Of (c : String) (a b : ℚ) : Composite :=
  { toFacility := LfacOf c a b
    completeness_pct := 100
    mds_composite := none
    claims_utilization := some b }

def Lcomp5 : List Composite :=
  [Lcomp5Of "a" 0 0, Lcomp5Of "b" 0 0, Lcomp5Of "c" 0 0, Lcomp5Of "d" 0 0,
   Lcomp5Of "e" 0 0, Lcomp5Of "f" 2 2, Lcomp5Of "g" 2 2, Lcomp5Of "h" 2 2,
   Lcomp5Of "i" 2 2, Lcomp5Of "j" 2 2]

def s5TX : StateStats := ⟨"TX", 1, 10, none, none, some 1, some 1⟩

def Lz5Of (c : String) (ab zu : ℚ) : ZRow :=
  { ccn := c, extract_id := 1, as_of_date := 1, state := "TX",
    mds_composite := none, claims_utilization := some ab,
    measure_410 := some ab, measure_453 := some 0, measure_407 := some 0,
    measure_409 := some 0, measure_551 := some ab, measure_552 := some 0,
    measures_present := 6, measures_suppressed := 0, completeness_pct := 100,
    is_complete := true, state_facility_count := some 10,
    state_mds_mean := none, state_mds_stddev := none,
    state_claims_mean := some 1, state_claims_stddev := some 1,
    is_small_state := false, mds_z_score := none, claims_z_score := some zu }

def Lz5 : List ZRow :=
  [Lz5Of "a" 0 (-1), Lz5Of "b" 0 (-1), Lz5Of "c" 0 (-1), Lz5Of "d" 0 (-1),
   Lz5Of "e" 0 (-1), Lz5Of "f" 2 1, Lz5Of "g" 2 1, Lz5Of "h" 2 1,
   Lz5Of "i" 2 1, Lz5Of "j" 2 1]

/-- Literal `state_stats` row of the small-cohort scenario. -/
def sSmall : StateStats := ⟨"TX", 1, 1, some 0, some 0, some 0, some 0⟩

/-- Literal `with_z_scores` row of the small-cohort scenario. -/
def LzSmall : ZRow :=
  { ccn := "s", extract_id := 1, as_of_date := 1, state := "TX",
    mds_composite := some 0, claims_utilization := some 0,
    measure_410 := some 0, measure_453 := some 0, measure_407 := some 0,
    measure_409 := some 0, measure_551 := some 0, measure_552 := some 0,
    measures_present := 6, measures_suppressed := 0, completeness_pct := 100,
    is_complete := true, state_facility_count := some 1,
    state_mds_mean := some 0, state_mds_stddev := some 0,
    state_claims_mean := some 0, state_claims_stddev := some 0,
    is_small_state := true, mds_z_score := none, claims_z_score := none }

/-! ### Lemmas about the SQL primitives -/

theorem omul_ne_none {a b : Option ℚ} (ha : a ≠ none) (hb : b ≠ none) :
    omul a b ≠ none := by
  cases a <;> cases b <;> simp_all [omul]

theorem oadd_ne_none {a b : Option ℚ} (ha : a ≠ none) (hb : b ≠ none) :
    oadd a b ≠ none := by
  cases a <;> cases b <;> simp_all [oadd]

theorem omul_eq_some {a b : Option ℚ} {y : ℚ} (h : omul a b = some y) :
    a ≠ none ∧ b ≠ none := by
  cases a <;> cases b <;> simp_all [omul]

theorem oadd_eq_some {a b : Option ℚ} {y : ℚ} (h : oadd a b = some y) :
    a ≠ none ∧ b ≠ none := by
  cases a <;> cases b <;> simp_all [oadd]

theorem avg_eq {xs : List ℚ} (h : xs ≠ []) : avg xs = some (xs.sum / xs.length) := by
  simp [avg, h]

theorem stddev_pop_eq {sq : ℚ → ℚ} {xs : List ℚ} (h : xs ≠ []) :
    stddev_pop sq xs = some (sq (var_pop xs)) := by
  simp [stddev_pop, h]

theorem stddev_pop_eq_some {sq : ℚ → ℚ} {xs : List ℚ} {d : ℚ}
    (h : stddev_pop sq xs = some d) : xs ≠ [] ∧ d = sq (var_pop xs) := by
  by_cases hx : xs = [] <;> simp_all [stddev_pop]

/-- Population variance of a one-element list is zero. -/
theorem var_pop_single (v : ℚ) : var_pop [v] = 0 := by
  simp [var_pop]

/-! ### The `state_stats` lookup join -/

theorem find?_eq_key (k : StateKey) (l : List StateKey) :
    l.find? (fun x => decide (x = k)) = if k ∈ l then some k else none := by
  induction l with
  | nil => simp
  | cons a t ih =>
    by_cases h : a = k
    · subst h
      rw [List.find?_cons_of_pos _ (by simp)]
      simp
    · rw [List.find?_cons_of_neg _ (by simpa using h), ih]
      have hk : ¬k = a := fun hh => h hh.symm
      simp [List.mem_cons, hk]

theorem cohort_ne_nil_iff (cs : List Composite) (k : StateKey) :
    cohort cs k ≠ [] ↔
      ∃ f ∈ cs, f.is_complete = true ∧ f.state = k.state ∧ f.extract_id = k.extract_id := by
  unfold cohort
  rw [ne_eq, List.filter_eq_nil_iff]
  push_neg
  constructor
  · rintro ⟨f, hf, hp⟩
    simp only [Bool.and_eq_true, decide_eq_true_eq] at hp
    exact ⟨f, hf, hp.1, hp.2.1, hp.2.2⟩
  · rintro ⟨f, hf, h1, h2, h3⟩
    exact ⟨f, hf, by simp [h1, h2, h3]⟩

theorem statsFor_state (sq : ℚ → ℚ) (cs : List Composite) (k : StateKey) :
    (statsFor sq cs k).state = k.state := rfl

theorem state_stats_find? (sq : ℚ → ℚ) (cs : List Composite) (st : String) (e : ℕ) :
    (state_stats sq cs).find? (fun s => decide (s.state = st ∧ s.extract_id = e)) =
      if cohort cs ⟨st, e⟩ = [] then none else some (statsFor sq cs ⟨st, e⟩) := by
  unfold state_stats
  rw [List.find?_map]
  have hp : ((fun s : StateStats => decide (s.state = st ∧ s.extract_id = e)) ∘ statsFor sq cs)
      = fun x : StateKey => decide (x = ⟨st, e⟩) := by
    funext x
    simp only [Function.comp_apply]
    rw [decide_eq_decide]
    cases x
    simp [statsFor, StateKey.mk.injEq]
  rw [hp, find?_eq_key]
  have hmem : (⟨st, e⟩ : StateKey) ∈ ((cs.filter (fun f => f.is_complete)).map stateKeyOf).dedup
      ↔ cohort cs ⟨st, e⟩ ≠ [] := by
    rw [List.mem_dedup, cohort_ne_nil_iff]
    simp only [List.mem_map, List.mem_filter]
    constructor
    · rintro ⟨f, ⟨hf, hc⟩, hk⟩
      cases hk
      exact ⟨f, hf, hc, rfl, rfl⟩
    · rintro ⟨f, hf, hc, h2, h3⟩
      exact ⟨f, ⟨hf, hc⟩, by simp [stateKeyOf, h2, h3]⟩
  by_cases hc : cohort cs ⟨st, e⟩ = []
  · rw [if_neg (by rw [hmem]; simp [hc]), if_pos hc]
    rfl
  · rw [if_pos (hmem.mpr hc), if_neg hc]
    rfl

theorem self_mem_cohort {cs : List Composite} {f : Composite} (hf : f ∈ cs)
    (hc : f.is_complete = true) : f ∈ cohort cs ⟨f.state, f.extract_id⟩ := by
  simp [cohort, List.mem_filter, hf, hc]

theorem cohort_subset {cs : List Composite} {k : StateKey} {g : Composite}
    (hg : g ∈ cohort cs k) : g ∈ cs ∧ g.is_complete = true := by
  have := List.mem_filter.mp hg
  refine ⟨this.1, ?_⟩
  have h2 := this.2
  simp only [Bool.and_eq_true] at h2
  exact h2.1

/-! ### Completeness and composites -/

theorem presentBit_le_one (v : Option ℚ) (s : ℕ) : presentBit v s ≤ 1 := by
  unfold presentBit
  split <;> omega

theorem presentBit_eq_one_iff (v : Option ℚ) (s : ℕ) :
    presentBit v s = 1 ↔ (v.isSome = true ∧ s = 0) := by
  unfold presentBit
  split <;> rename_i h
  · simpa using h
  · constructor
    · omega
    · intro hh
      exact absurd hh h

theorem complete_iff_present (v1 v2 v3 v4 v5 v6 : Option ℚ) (s1 s2 s3 s4 s5 s6 : ℕ) :
    decide (v1.isSome ∧ s1 = 0 ∧ v2.isSome ∧ s2 = 0 ∧ v3.isSome ∧ s3 = 0 ∧
        v4.isSome ∧ s4 = 0 ∧ v5.isSome ∧ s5 = 0 ∧ v6.isSome ∧ s6 = 0) = true ↔
      presentBit v1 s1 + presentBit v2 s2 + presentBit v3 s3 + presentBit v4 s4 +
        presentBit v5 s5 + presentBit v6 s6 = 6 := by
  have b1 := presentBit_le_one v1 s1
  have b2 := presentBit_le_one v2 s2
  have b3 := presentBit_le_one v3 s3
  have b4 := presentBit_le_one v4 s4
  have b5 := presentBit_le_one v5 s5
  have b6 := presentBit_le_one v6 s6
  have e1 := presentBit_eq_one_iff v1 s1
  have e2 := presentBit_eq_one_iff v2 s2
  have e3 := presentBit_eq_one_iff v3 s3
  have e4 := presentBit_eq_one_iff v4 s4
  have e5 := presentBit_eq_one_iff v5 s5
  have e6 := presentBit_eq_one_iff v6 s6
  rw [decide_eq_true_eq]
  constructor
  · rintro ⟨h1, h2, h3, h4, h5, h6, h7, h8, h9, h10, h11, h12⟩
    have p1 := e1.mpr ⟨h1, h2⟩
    have p2 := e2.mpr ⟨h3, h4⟩
    have p3 := e3.mpr ⟨h5, h6⟩
    have p4 := e4.mpr ⟨h7, h8⟩
    have p5 := e5.mpr ⟨h9, h10⟩
    have p6 := e6.mpr ⟨h11, h12⟩
    omega
  · intro h
    exact ⟨(e1.mp (by omega)).1, (e1.mp (by omega)).2, (e2.mp (by omega)).1,
      (e2.mp (by omega)).2, (e3.mp (by omega)).1, (e3.mp (by omega)).2,
      (e4.mp (by omega)).1, (e4.mp (by omega)).2, (e5.mp (by omega)).1,
      (e5.mp (by omega)).2, (e6.mp (by omega)).1, (e6.mp (by omega)).2⟩

theorem facBuild_complete_iff (cb : List ClaimsBase) (m : MdsBase) :
    (facBuild cb m).is_complete = true ↔ (facBuild cb m).measures_present = 6 := by
  simp only [facBuild]
  exact complete_iff_present _ _ _ _ _ _ _ _ _ _ _ _

theorem oadd_ne_none_parts {a b : Option ℚ} (h : oadd a b ≠ none) :
    a ≠ none ∧ b ≠ none := by
  cases a <;> cases b <;> simp_all [oadd]

theorem omul_ne_none_parts {a b : Option ℚ} (h : omul a b ≠ none) :
    a ≠ none ∧ b ≠ none := by
  cases a <;> cases b <;> simp_all [omul]

theorem with_composites_src {m : List MdsRow} {c : List ClaimsRow} {wr : List WeightRow}
    {x : Composite} (hx : x ∈ with_composites m c wr) :
    ∃ f ∈ all_facilities m c, x = compBuild (weight_values wr) f := by
  obtain ⟨f, hf, he⟩ := List.mem_map.mp hx
  exact ⟨f, hf, he.symm⟩

theorem complete_measures {m : List MdsRow} {c : List ClaimsRow} {x : Facility}
    (hx : x ∈ all_facilities m c) (hc : x.is_complete = true) :
    x.measure_410 ≠ none ∧ x.measure_453 ≠ none ∧ x.measure_407 ≠ none ∧
    x.measure_409 ≠ none ∧ x.measure_551 ≠ none ∧ x.measure_552 ≠ none := by
  obtain ⟨mb, hmb, he⟩ := List.mem_map.mp hx
  subst he
  simp only [facBuild, decide_eq_true_eq] at hc ⊢
  obtain ⟨h1, _, h3, _, h5, _, h7, _, h9, _, h11, _⟩ := hc
  exact ⟨Option.isSome_iff_ne_none.mp h1, Option.isSome_iff_ne_none.mp h3,
    Option.isSome_iff_ne_none.mp h5, Option.isSome_iff_ne_none.mp h7,
    Option.isSome_iff_ne_none.mp h9, Option.isSome_iff_ne_none.mp h11⟩

theorem mds_composite_of_complete {w : WeightValues} {f : Facility}
    (hc : f.is_complete = true) :
    (compBuild w f).mds_composite =
      oadd (oadd (oadd (omul w.w_410 f.measure_410) (omul w.w_453 f.measure_453))
        (omul w.w_407 f.measure_407)) (omul w.w_409 f.measure_409) := by
  simp [compBuild, hc]

theorem claims_composite_of_complete {w : WeightValues} {f : Facility}
    (hc : f.is_complete = true) :
    (compBuild w f).claims_utilization =
      oadd (omul w.w_551 f.measure_551) (omul w.w_552 f.measure_552) := by
  simp [compBuild, hc]

theorem mds_composite_of_incomplete {w : WeightValues} {f : Facility}
    (hc : f.is_complete = false) : (compBuild w f).mds_composite = none := by
  simp [compBuild, hc]

theorem claims_composite_of_incomplete {w : WeightValues} {f : Facility}
    (hc : f.is_complete = false) : (compBuild w f).claims_utilization = none := by
  simp [compBuild, hc]

theorem weights_of_mds_some {w : WeightValues} {f : Facility}
    (h : (compBuild w f).mds_composite ≠ none) :
    w.w_410 ≠ none ∧ w.w_453 ≠ none ∧ w.w_407 ≠ none ∧ w.w_409 ≠ none ∧
    f.is_complete = true := by
  by_cases hc : f.is_complete = true
  · rw [mds_composite_of_complete hc] at h
    obtain ⟨h1, h409⟩ := oadd_ne_none_parts h
    obtain ⟨h2, h407⟩ := oadd_ne_none_parts h1
    obtain ⟨h3, h453⟩ := oadd_ne_none_parts h2
    exact ⟨(omul_ne_none_parts h3).1, (omul_ne_none_parts h453).1,
      (omul_ne_none_parts h407).1, (omul_ne_none_parts h409).1, hc⟩
  · rw [mds_composite_of_incomplete (by simpa using hc)] at h
    exact absurd rfl h

theorem weights_of_claims_some {w : WeightValues} {f : Facility}
    (h : (compBuild w f).claims_utilization ≠ none) :
    w.w_551 ≠ none ∧ w.w_552 ≠ none ∧ f.is_complete = true := by
  by_cases hc : f.is_complete = true
  · rw [claims_composite_of_complete hc] at h
    obtain ⟨h1, h552⟩ := oadd_ne_none_parts h
    exact ⟨(omul_ne_none_parts h1).1, (omul_ne_none_parts h552).1, hc⟩
  · rw [claims_composite_of_incomplete (by simpa using hc)] at h
    exact absurd rfl h

theorem mds_composite_ne_none {w : WeightValues} {f : Facility} (hc : f.is_complete = true)
    (hm : f.measure_410 ≠ none ∧ f.measure_453 ≠ none ∧ f.measure_407 ≠ none ∧
      f.measure_409 ≠ none)
    (hw : w.w_410 ≠ none ∧ w.w_453 ≠ none ∧ w.w_407 ≠ none ∧ w.w_409 ≠ none) :
    (compBuild w f).mds_composite ≠ none := by
  rw [mds_composite_of_complete hc]
  exact oadd_ne_none
    (oadd_ne_none (oadd_ne_none (omul_ne_none hw.1 hm.1) (omul_ne_none hw.2.1 hm.2.1))
      (omul_ne_none hw.2.2.1 hm.2.2.1)) (omul_ne_none hw.2.2.2 hm.2.2.2)

theorem claims_composite_ne_none {w : WeightValues} {f : Facility}
    (hc : f.is_complete = true)
    (hm : f.measure_551 ≠ none ∧ f.measure_552 ≠ none)
    (hw : w.w_551 ≠ none ∧ w.w_552 ≠ none) :
    (compBuild w f).claims_utilization ≠ none := by
  rw [claims_composite_of_complete hc]
  exact oadd_ne_none (omul_ne_none hw.1 hm.1) (omul_ne_none hw.2 hm.2)

/-- A complete facility of the pipeline has a non-NULL quality composite as
soon as some facility of the same pipeline has one (the weights are shared). -/
theorem mds_composite_ne_none_of_cohort {m : List MdsRow} {c : List ClaimsRow}
    {wr : List WeightRow} {x g : Composite} (hx : x ∈ with_composites m c wr)
    (hcx : x.is_complete = true) (hg : g ∈ with_composites m c wr)
    (hgc : g.mds_composite ≠ none) : x.mds_composite ≠ none := by
  obtain ⟨fg, _, rfl⟩ := with_composites_src hg
  obtain ⟨fx, hfx, rfl⟩ := with_composites_src hx
  obtain ⟨w1, w2, w3, w4, _⟩ := weights_of_mds_some hgc
  have hcx' : fx.is_complete = true := hcx
  obtain ⟨m1, m2, m3, m4, _, _⟩ := complete_measures hfx hcx'
  exact mds_composite_ne_none hcx' ⟨m1, m2, m3, m4⟩ ⟨w1, w2, w3, w4⟩

theorem claims_composite_ne_none_of_cohort {m : List MdsRow} {c : List ClaimsRow}
    {wr : List WeightRow} {x g : Composite} (hx : x ∈ with_composites m c wr)
    (hcx : x.is_complete = true) (hg : g ∈ with_composites m c wr)
    (hgc : g.claims_utilization ≠ none) : x.claims_utilization ≠ none := by
  obtain ⟨fg, _, rfl⟩ := with_composites_src hg
  obtain ⟨fx, hfx, rfl⟩ := with_composites_src hx
  obtain ⟨w1, w2, _⟩ := weights_of_claims_some hgc
  have hcx' : fx.is_complete = true := hcx
  obtain ⟨_, _, _, _, m5, m6⟩ := complete_measures hfx hcx'
  exact claims_composite_ne_none hcx' ⟨m5, m6⟩ ⟨w1, w2⟩

theorem zBuild_fields (stats : List StateStats) (f : Composite) :
    (zBuild stats f).ccn = f.ccn ∧ (zBuild stats f).extract_id = f.extract_id ∧
    (zBuild stats f).state = f.state ∧ (zBuild stats f).is_complete = f.is_complete ∧
    (zBuild stats f).mds_composite = f.mds_composite ∧
    (zBuild stats f).claims_utilization = f.claims_utilization ∧
    (zBuild stats f).measures_present = f.measures_present ∧
    (zBuild stats f).completeness_pct = f.completeness_pct :=
  ⟨rfl, rfl, rfl, rfl, rfl, rfl, rfl, rfl⟩

/-- The quality-side z-score is non-NULL exactly under the completeness,
minimum-cohort and positive-stddev gate, where the cohort statistics are those
of the complete facilities of the row's own (state, extract_id). -/
theorem zBuild_mds_z_char {mrows : List MdsRow} {crows : List ClaimsRow}
    {wrows : List WeightRow} (sq : ℚ → ℚ) {f : Composite}
    (hf : f ∈ with_composites mrows crows wrows) :
    ((zBuild (state_stats sq (with_composites mrows crows wrows)) f).mds_z_score ≠ none ↔
      (f.is_complete = true ∧
        10 ≤ (cohort (with_composites mrows crows wrows) ⟨f.state, f.extract_id⟩).length ∧
        ∃ d, stddev_pop sq
            ((cohort (with_composites mrows crows wrows) ⟨f.state, f.extract_id⟩).filterMap
              (fun x => x.mds_composite)) = some d ∧ 0 < d)) := by
  have hfind := state_stats_find? sq (with_composites mrows crows wrows) f.state f.extract_id
  simp only [zBuild, hfind]
  by_cases hc : cohort (with_composites mrows crows wrows) ⟨f.state, f.extract_id⟩ = []
  · rw [if_pos hc]
    simp [zGate, hc]
  · rw [if_neg hc]
    by_cases hqs : (cohort (with_composites mrows crows wrows)
        ⟨f.state, f.extract_id⟩).filterMap (fun x => x.mds_composite) = []
    · simp only [zGate, statsFor, hqs, stddev_pop, if_pos rfl]
      simp
    · have hsd : stddev_pop sq ((cohort (with_composites mrows crows wrows)
          ⟨f.state, f.extract_id⟩).filterMap (fun x => x.mds_composite)) =
          some (sq (var_pop ((cohort (with_composites mrows crows wrows)
            ⟨f.state, f.extract_id⟩).filterMap (fun x => x.mds_composite)))) :=
        stddev_pop_eq hqs
      simp only [zGate, statsFor, hsd, Option.bind_some]
      by_cases hcomp : f.is_complete = true
      · by_cases hlen : 10 ≤ (cohort (with_composites mrows crows wrows)
            ⟨f.state, f.extract_id⟩).length
        · by_cases hpos : 0 < sq (var_pop ((cohort (with_composites mrows crows wrows)
              ⟨f.state, f.extract_id⟩).filterMap (fun x => x.mds_composite)))
          · rw [if_pos (by simp [hcomp, hlen, hpos])]
            have hfm : f.mds_composite ≠ none := by
              obtain ⟨g, hgmem, hgne⟩ :
                  ∃ g ∈ cohort (with_composites mrows crows wrows)
                    ⟨f.state, f.extract_id⟩, g.mds_composite ≠ none := by
                by_contra hall
                push_neg at hall
                exact hqs (List.filterMap_eq_nil_iff.mpr hall)
              exact mds_composite_ne_none_of_cohort hf hcomp (cohort_subset hgmem).1 hgne
            obtain ⟨xq, hxq⟩ := Option.ne_none_iff_exists.mp hfm
            have hmean : avg ((cohort (with_composites mrows crows wrows)
                ⟨f.state, f.extract_id⟩).filterMap (fun x => x.mds_composite)) =
                some (((cohort (with_composites mrows crows wrows)
                  ⟨f.state, f.extract_id⟩).filterMap (fun x => x.mds_composite)).sum /
                  ((cohort (with_composites mrows crows wrows)
                    ⟨f.state, f.extract_id⟩).filterMap (fun x => x.mds_composite)).length) :=
              avg_eq hqs
            rw [hmean]
            simp only [zValue, ← hxq]
            simp [hcomp, hlen, hsd, hpos]
          · rw [if_neg (by simp [hpos])]
            simp [hsd, hpos]
        · rw [if_neg (by simp [hlen])]
          simp [hsd, hlen]
      · rw [if_neg (by simp [hcomp])]
        simp [hcomp]

/-- Utilization-side analogue of `zBuild_mds_z_char`. -/
theorem zBuild_claims_z_char {mrows : List MdsRow} {crows : List ClaimsRow}
    {wrows : List WeightRow} (sq : ℚ → ℚ) {f : Composite}
    (hf : f ∈ with_composites mrows crows wrows) :
    ((zBuild (state_stats sq (with_composites mrows crows wrows)) f).claims_z_score ≠ none ↔
      (f.is_complete = true ∧
        10 ≤ (cohort (with_composites mrows crows wrows) ⟨f.state, f.extract_id⟩).length ∧
        ∃ d, stddev_pop sq
            ((cohort (with_composites mrows crows wrows) ⟨f.state, f.extract_id⟩).filterMap
              (fun x => x.claims_utilization)) = some d ∧ 0 < d)) := by
  have hfind := state_stats_find? sq (with_composites mrows crows wrows) f.state f.extract_id
  simp only [zBuild, hfind]
  by_cases hc : cohort (with_composites mrows crows wrows) ⟨f.state, f.extract_id⟩ = []
  · rw [if_pos hc]
    simp [zGate, hc]
  · rw [if_neg hc]
    by_cases hqs : (cohort (with_composites mrows crows wrows)
        ⟨f.state, f.extract_id⟩).filterMap (fun x => x.claims_utilization) = []
    · simp only [zGate, statsFor, hqs, stddev_pop, if_pos rfl]
      simp
    · have hsd : stddev_pop sq ((cohort (with_composites mrows crows wrows)
          ⟨f.state, f.extract_id⟩).filterMap (fun x => x.claims_utilization)) =
          some (sq (var_pop ((cohort (with_composites mrows crows wrows)
            ⟨f.state, f.extract_id⟩).filterMap (fun x => x.claims_utilization)))) :=
        stddev_pop_eq hqs
      simp only [zGate, statsFor, hsd, Option.bind_some]
      by_cases hcomp : f.is_complete = true
      · by_cases hlen : 10 ≤ (cohort (with_composites mrows crows wrows)
            ⟨f.state, f.extract_id⟩).length
        · by_cases hpos : 0 < sq (var_pop ((cohort (with_composites mrows crows wrows)
              ⟨f.state, f.extract_id⟩).filterMap (fun x => x.claims_utilization)))
          · rw [if_pos (by simp [hcomp, hlen, hpos])]
            have hfm : f.claims_utilization ≠ none := by
              obtain ⟨g, hgmem, hgne⟩ :
                  ∃ g ∈ cohort (with_composites mrows crows wrows)
                    ⟨f.state, f.extract_id⟩, g.claims_utilization ≠ none := by
                by_contra hall
                push_neg at hall
                exact hqs (List.filterMap_eq_nil_iff.mpr hall)
              exact claims_composite_ne_none_of_cohort hf hcomp (cohort_subset hgmem).1 hgne
            obtain ⟨xq, hxq⟩ := Option.ne_none_iff_exists.mp hfm
            have hmean : avg ((cohort (with_composites mrows crows wrows)
                ⟨f.state, f.extract_id⟩).filterMap (fun x => x.claims_utilization)) =
                some (((cohort (with_composites mrows crows wrows)
                  ⟨f.state, f.extract_id⟩).filterMap (fun x => x.claims_utilization)).sum /
                  ((cohort (with_composites mrows crows wrows)
                    ⟨f.state, f.extract_id⟩).filterMap (fun x => x.claims_utilization)).length) :=
              avg_eq hqs
            rw [hmean]
            simp only [zValue, ← hxq]
            simp [hcomp, hlen, hsd, hpos]
          · rw [if_neg (by simp [hpos])]
            simp [hsd, hpos]
        · rw [if_neg (by simp [hlen])]
          simp [hsd, hlen]
      · rw [if_neg (by simp [hcomp])]
        simp [hcomp]

/-- When the quality-side z-score is non-NULL it equals
`(composite - cohort mean) / sq(cohort population variance)`, the mean being
the sum of the cohort's non-NULL composites divided by their count. -/
theorem zBuild_mds_z_val {mrows : List MdsRow} {crows : List ClaimsRow}
    {wrows : List WeightRow} (sq : ℚ → ℚ) {f : Composite} {zq : ℚ}
    (hz : (zBuild (state_stats sq (with_composites mrows crows wrows)) f).mds_z_score =
      some zq) :
    ∃ xq, f.mds_composite = some xq ∧
      zq = (xq - ((cohort (with_composites mrows crows wrows)
          ⟨f.state, f.extract_id⟩).filterMap (fun x => x.mds_composite)).sum /
          ((cohort (with_composites mrows crows wrows)
            ⟨f.state, f.extract_id⟩).filterMap (fun x => x.mds_composite)).length) /
        sq (var_pop ((cohort (with_composites mrows crows wrows)
          ⟨f.state, f.extract_id⟩).filterMap (fun x => x.mds_composite))) := by
  have hfind := state_stats_find? sq (with_composites mrows crows wrows) f.state f.extract_id
  simp only [zBuild, hfind] at hz
  by_cases hc : cohort (with_composites mrows crows wrows) ⟨f.state, f.extract_id⟩ = []
  · rw [if_pos hc] at hz
    simp [zGate] at hz
  · rw [if_neg hc] at hz
    by_cases hqs : (cohort (with_composites mrows crows wrows)
        ⟨f.state, f.extract_id⟩).filterMap (fun x => x.mds_composite) = []
    · simp only [zGate, statsFor, hqs, stddev_pop, if_pos rfl] at hz
      simp at hz
    · simp only [zGate, statsFor, stddev_pop_eq hqs, avg_eq hqs, Option.bind_some] at hz
      split at hz
      · cases hm : f.mds_composite with
        | none => simp [zValue, hm] at hz
        | some xq =>
          refine ⟨xq, rfl, ?_⟩
          simp only [zValue, hm] at hz
          exact (Option.some_injective ℚ hz).symm
      · exact absurd hz (by simp)

/-- Utilization-side analogue of `zBuild_mds_z_val`. -/
theorem zBuild_claims_z_val {mrows : List MdsRow} {crows : List ClaimsRow}
    {wrows : List WeightRow} (sq : ℚ → ℚ) {f : Composite} {zu : ℚ}
    (hz : (zBuild (state_stats sq (with_composites mrows crows wrows)) f).claims_z_score =
      some zu) :
    ∃ xu, f.claims_utilization = some xu ∧
      zu = (xu - ((cohort (with_composites mrows crows wrows)
          ⟨f.state, f.extract_id⟩).filterMap (fun x => x.claims_utilization)).sum /
          ((cohort (with_composites mrows crows wrows)
            ⟨f.state, f.extract_id⟩).filterMap (fun x => x.claims_utilization)).length) /
        sq (var_pop ((cohort (with_composites mrows crows wrows)
          ⟨f.state, f.extract_id⟩).filterMap (fun x => x.claims_utilization))) := by
  have hfind := state_stats_find? sq (with_composites mrows crows wrows) f.state f.extract_id
  simp only [zBuild, hfind] at hz
  by_cases hc : cohort (with_composites mrows crows wrows) ⟨f.state, f.extract_id⟩ = []
  · rw [if_pos hc] at hz
    simp [zGate] at hz
  · rw [if_neg hc] at hz
    by_cases hqs : (cohort (with_composites mrows crows wrows)
        ⟨f.state, f.extract_id⟩).filterMap (fun x => x.claims_utilization) = []
    · simp only [zGate, statsFor, hqs, stddev_pop, if_pos rfl] at hz
      simp at hz
    · simp only [zGate, statsFor, stddev_pop_eq hqs, avg_eq hqs, Option.bind_some] at hz
      split at hz
      · cases hm : f.claims_utilization with
        | none => simp [zValue, hm] at hz
        | some xu =>
          refine ⟨xu, rfl, ?_⟩
          simp only [zValue, hm] at hz
          exact (Option.some_injective ℚ hz).symm
      · exact absurd hz (by simp)

/-- `is_small_state` is `COALESCE(facility_count, 0) < 10`, which equals
"fewer than 10 complete facilities in the row's (state, extract_id)". -/
theorem zBuild_small_state {mrows : List MdsRow} {crows : List ClaimsRow}
    {wrows : List WeightRow} (sq : ℚ → ℚ) (f : Composite) :
    (zBuild (state_stats sq (with_composites mrows crows wrows)) f).is_small_state =
      decide ((cohort (with_composites mrows crows wrows)
        ⟨f.state, f.extract_id⟩).length < 10) := by
  have hfind := state_stats_find? sq (with_composites mrows crows wrows) f.state f.extract_id
  simp only [zBuild, hfind]
  by_cases hc : cohort (with_composites mrows crows wrows) ⟨f.state, f.extract_id⟩ = []
  · rw [if_pos hc, hc]
    simp
  · rw [if_neg hc]
    simp [statsFor]

/-- Decomposition of an output row into its `with_composites` source. -/
theorem crid_monthly_src {sq : ℚ → ℚ} {w : ℕ} {mrows : List MdsRow}
    {crows : List ClaimsRow} {wrows : List WeightRow} {r : CridRow}
    (hr : r ∈ crid_monthly sq w mrows crows wrows) :
    ∃ f ∈ with_composites mrows crows wrows,
      r = insertBuild (cridBuild sq (w - 1) (with_z_scores sq mrows crows wrows)
        (zBuild (state_stats sq (with_composites mrows crows wrows)) f)) := by
  unfold crid_monthly with_crid with_z_scores at hr
  rw [List.map_map, List.map_map] at hr
  obtain ⟨f, hf, he⟩ := List.mem_map.mp hr
  refine ⟨f, hf, ?_⟩
  rw [← he]
  rfl

theorem mem_with_z_scores {sq : ℚ → ℚ} {mrows : List MdsRow} {crows : List ClaimsRow}
    {wrows : List WeightRow} {f : Composite} (hf : f ∈ with_composites mrows crows wrows) :
    zBuild (state_stats sq (with_composites mrows crows wrows)) f ∈
      with_z_scores sq mrows crows wrows := by
  unfold with_z_scores
  exact List.mem_map_of_mem _ hf

theorem cridOf_ne_none_iff (z : ZRow) :
    cridOf z ≠ none ↔ (z.mds_z_score ≠ none ∧ z.claims_z_score ≠ none) := by
  unfold cridOf
  cases z.mds_z_score <;> cases z.claims_z_score <;> simp

theorem cridOf_eq_some {z : ZRow} {v : ℚ} (h : cridOf z = some v) :
    ∃ a b, z.mds_z_score = some a ∧ z.claims_z_score = some b ∧ v = a - b := by
  unfold cridOf at h
  cases hm : z.mds_z_score with
  | none => rw [hm] at h; cases h
  | some a =>
    cases hc : z.claims_z_score with
    | none => rw [hm, hc] at h; cases h
    | some b =>
      rw [hm, hc] at h
      exact ⟨a, b, rfl, rfl, (Option.some_injective ℚ h).symm⟩

theorem cridBuild_crid_value (sq : ℚ → ℚ) (p : ℕ) (zs : List ZRow) (z : ZRow) :
    (cridBuild sq p zs z).crid_value = cridOf z := rfl

theorem cridBuild_vol_of_none {sq : ℚ → ℚ} {p : ℕ} {zs : List ZRow} {z : ZRow}
    (h : cridOf z = none) : (cridBuild sq p zs z).crid_volatility = none := by
  unfold cridBuild
  unfold cridOf at h
  cases hm : z.mds_z_score <;> cases hc : z.claims_z_score <;> simp_all

theorem cridBuild_vol_of_some {sq : ℚ → ℚ} {p : ℕ} {zs : List ZRow} {z : ZRow}
    (h : cridOf z ≠ none) : (cridBuild sq p zs z).crid_volatility =
      stddev_pop sq ((windowRows zs z.ccn z.extract_id p).filterMap cridOf) := by
  unfold cridBuild
  unfold cridOf at h
  cases hm : z.mds_z_score <;> cases hc : z.claims_z_score <;> simp_all

theorem self_mem_windowRows {zs : List ZRow} {z : ZRow} (hz : z ∈ zs) (p : ℕ) :
    z ∈ windowRows zs z.ccn z.extract_id p := by
  unfold windowRows
  refine List.mem_filter.mpr ⟨List.mem_filter.mpr ⟨hz, by simp⟩, ?_⟩
  have hnil : (zs.filter
      (fun x => decide (x.ccn = z.ccn ∧ x.extract_id ≤ z.extract_id))).filter
      (fun y => decide (z.extract_id < y.extract_id)) = [] := by
    rw [List.filter_eq_nil_iff]
    intro y hy
    have := (decide_eq_true_eq.mp (List.mem_filter.mp hy).2).2
    simp
    omega
  rw [hnil]
  simp

/-- Merging the two filters of the window-frame rank count. -/
theorem windowRows_count_eq (zs : List ZRow) (c : String) (e : ℕ) (x : ZRow) :
    ((zs.filter (fun y => decide (y.ccn = c ∧ y.extract_id ≤ e))).filter
      (fun y => decide (x.extract_id < y.extract_id))) =
    zs.filter (fun y => decide (y.ccn = c ∧ x.extract_id < y.extract_id ∧
      y.extract_id ≤ e)) := by
  rw [List.filter_filter]
  congr 1
  funext y
  by_cases h1 : y.ccn = c <;> by_cases h2 : x.extract_id < y.extract_id <;>
    by_cases h3 : y.extract_id ≤ e <;> simp [h1, h2, h3]

/-- Extensional description of the window frame: the rows of facility `c` at a
period at or before `e` such that at most `p` periods of that facility lie
strictly between theirs and `e` (i.e. the current period and the `p`
immediately preceding ones). -/
theorem windowRows_mem_iff (zs : List ZRow) (c : String) (e : ℕ) (p : ℕ) (x : ZRow) :
    x ∈ windowRows zs c e p ↔
      (x ∈ zs ∧ x.ccn = c ∧ x.extract_id ≤ e ∧
        (zs.filter (fun y =>
          decide (y.ccn = c ∧ x.extract_id < y.extract_id ∧ y.extract_id ≤ e))).length ≤ p) := by
  unfold windowRows
  constructor
  · intro h
    obtain ⟨h1, h2⟩ := List.mem_filter.mp h
    obtain ⟨hx, hk⟩ := List.mem_filter.mp h1
    obtain ⟨hc1, hc2⟩ := decide_eq_true_eq.mp hk
    refine ⟨hx, hc1, hc2, ?_⟩
    have hcnt := decide_eq_true_eq.mp h2
    rwa [windowRows_count_eq] at hcnt
  · rintro ⟨hx, h1, h2, hcnt⟩
    refine List.mem_filter.mpr ⟨List.mem_filter.mpr ⟨hx, by simp [h1, h2]⟩, ?_⟩
    rw [decide_eq_true_eq, windowRows_count_eq]
    exact hcnt

theorem insertBuild_flags (r : CridRow) : (insertBuild r).flags = flagsOf r := rfl

theorem flagsOf_insertBuild (r : CridRow) : flagsOf (insertBuild r) = flagsOf r := rfl

theorem ogt_iff (v : Option ℚ) (t : ℚ) : ogt v t = true ↔ ∃ x, v = some x ∧ t < x := by
  cases v <;> simp [ogt]

theorem olt_iff (v : Option ℚ) (t : ℚ) : olt v t = true ↔ ∃ x, v = some x ∧ x < t := by
  cases v <;> simp [olt]

theorem flagIf_eq_some {b : Bool} {f s : String} :
    flagIf b f = some s ↔ (b = true ∧ f = s) := by
  unfold flagIf
  split <;> simp_all

theorem mem_flagsOf (s : String) (r : CridRow) :
    s ∈ flagsOf r ↔
      ((!r.is_complete) = true ∧ "INCOMPLETE_MEASURES" = s) ∨
      (r.is_small_state = true ∧ "SMALL_STATE" = s) ∨
      (ogt r.crid_value 2 = true ∧ "HIGH_POSITIVE_CRID" = s) ∨
      (olt r.crid_value (-2) = true ∧ "HIGH_NEGATIVE_CRID" = s) ∨
      (ogt r.crid_value 3 = true ∧ "EXTREME_POSITIVE_CRID" = s) ∨
      (olt r.crid_value (-3) = true ∧ "EXTREME_NEGATIVE_CRID" = s) ∨
      (ogt r.crid_volatility (3 / 2) = true ∧ "HIGH_VOLATILITY" = s) ∨
      (outlierCond r.mds_z_score r.claims_z_score = true ∧ "MDS_OUTLIER" = s) ∨
      (outlierCond r.claims_z_score r.mds_z_score = true ∧ "CLAIMS_OUTLIER" = s) := by
  unfold flagsOf
  rw [List.mem_filterMap]
  constructor
  · rintro ⟨o, ho, hid⟩
    simp only [List.mem_cons, List.not_mem_nil, or_false] at ho
    subst hid
    rcases ho with h | h | h | h | h | h | h | h | h <;>
      [exact Or.inl (flagIf_eq_some.mp h.symm);
       exact Or.inr (Or.inl (flagIf_eq_some.mp h.symm));
       exact Or.inr (Or.inr (Or.inl (flagIf_eq_some.mp h.symm)));
       exact Or.inr (Or.inr (Or.inr (Or.inl (flagIf_eq_some.mp h.symm))));
       exact Or.inr (Or.inr (Or.inr (Or.inr (Or.inl (flagIf_eq_some.mp h.symm)))));
       exact Or.inr (Or.inr (Or.inr (Or.inr (Or.inr (Or.inl
         (flagIf_eq_some.mp h.symm))))));
       exact Or.inr (Or.inr (Or.inr (Or.inr (Or.inr (Or.inr (Or.inl
         (flagIf_eq_some.mp h.symm)))))));
       exact Or.inr (Or.inr (Or.inr (Or.inr (Or.inr (Or.inr (Or.inr (Or.inl
         (flagIf_eq_some.mp h.symm))))))));
       exact Or.inr (Or.inr (Or.inr (Or.inr (Or.inr (Or.inr (Or.inr (Or.inr
         (flagIf_eq_some.mp h.symm))))))))]
  · intro h
    rcases h with ⟨hb, hs⟩ | ⟨hb, hs⟩ | ⟨hb, hs⟩ | ⟨hb, hs⟩ | ⟨hb, hs⟩ | ⟨hb, hs⟩ |
      ⟨hb, hs⟩ | ⟨hb, hs⟩ | ⟨hb, hs⟩ <;>
      exact ⟨some s, by simp [← hs, flagIf, hb], rfl⟩

/-- C1 (gating invariant): for every output row, `crid_value` is non-NULL iff
both z-scores are non-NULL, which holds iff the facility-period is complete,
its (state, extract_id) cohort of complete facilities has at least 10 members,
and both cohort population standard deviations are positive; in particular a
zero cohort standard deviation yields a NULL z-score (and the total `ℚ`
semantics has no division fault to begin with). -/
theorem claim1_gating_invariant (sq : ℚ → ℚ) (w : ℕ) (mrows : List MdsRow)
    (crows : List ClaimsRow) (wrows : List WeightRow) (r : CridRow)
    (hr : r ∈ crid_monthly sq w mrows crows wrows) :
    (r.crid_value ≠ none ↔ (r.mds_z_score ≠ none ∧ r.claims_z_score ≠ none)) ∧
    (r.crid_value ≠ none ↔
      (r.is_complete = true ∧
        10 ≤ (cohort (with_composites mrows crows wrows) ⟨r.state, r.extract_id⟩).length ∧
        (∃ d, stddev_pop sq ((cohort (with_composites mrows crows wrows)
          ⟨r.state, r.extract_id⟩).filterMap (fun x => x.mds_composite)) = some d ∧
          0 < d) ∧
        (∃ d, stddev_pop sq ((cohort (with_composites mrows crows wrows)
          ⟨r.state, r.extract_id⟩).filterMap (fun x => x.claims_utilization)) = some d ∧
          0 < d))) ∧
    (stddev_pop sq ((cohort (with_composites mrows crows wrows)
      ⟨r.state, r.extract_id⟩).filterMap (fun x => x.mds_composite)) = some 0 →
      r.mds_z_score = none) ∧
    (stddev_pop sq ((cohort (with_composites mrows crows wrows)
      ⟨r.state, r.extract_id⟩).filterMap (fun x => x.claims_utilization)) = some 0 →
      r.claims_z_score = none) := by
  obtain ⟨f, hf, rfl⟩ := crid_monthly_src hr
  refine ⟨cridOf_ne_none_iff _, ?_, ?_, ?_⟩
  · refine Iff.trans (cridOf_ne_none_iff _) ?_
    rw [zBuild_mds_z_char sq hf, zBuild_claims_z_char sq hf]
    constructor
    · rintro ⟨⟨hic, hlen, hdq⟩, ⟨_, _, hdu⟩⟩
      exact ⟨hic, hlen, hdq, hdu⟩
    · rintro ⟨hic, hlen, hdq, hdu⟩
      exact ⟨⟨hic, hlen, hdq⟩, ⟨hic, hlen, hdu⟩⟩
  · intro h0
    by_contra hne
    have hne' : (zBuild (state_stats sq (with_composites mrows crows wrows)) f).mds_z_score
        ≠ none := hne
    obtain ⟨_, _, d, hd, hdpos⟩ := (zBuild_mds_z_char sq hf).mp hne'
    have h0' : stddev_pop sq ((cohort (with_composites mrows crows wrows)
        ⟨f.state, f.extract_id⟩).filterMap (fun x => x.mds_composite)) = some 0 := h0
    rw [h0'] at hd
    rw [Option.some_inj.mp hd] at hdpos
    exact lt_irrefl d hdpos
  · intro h0
    by_contra hne
    have hne' : (zBuild (state_stats sq (with_composites mrows crows wrows)) f).claims_z_score
        ≠ none := hne
    obtain ⟨_, _, d, hd, hdpos⟩ := (zBuild_claims_z_char sq hf).mp hne'
    have h0' : stddev_pop sq ((cohort (with_composites mrows crows wrows)
        ⟨f.state, f.extract_id⟩).filterMap (fun x => x.claims_utilization)) = some 0 := h0
    rw [h0'] at hd
    rw [Option.some_inj.mp hd] at hdpos
    exact lt_irrefl d hdpos

/-- C2 (score identity): whenever `crid_value` is non-NULL it equals
`mds_z_score - claims_z_score` exactly (so in particular within any
tolerance), and each z-score is `(composite - cohort mean) / cohort population
standard deviation`, the mean being sum-over-count and the variance the
mean squared deviation divided by N (not N - 1), both computed over exactly
the complete facilities of the row's (state, extract_id). -/
theorem claim2_score_identity (sq : ℚ → ℚ) (w : ℕ) (mrows : List MdsRow)
    (crows : List ClaimsRow) (wrows : List WeightRow) (r : CridRow)
    (hr : r ∈ crid_monthly sq w mrows crows wrows) (v : ℚ)
    (hv : r.crid_value = some v) :
    ∃ zq zu, r.mds_z_score = some zq ∧ r.claims_z_score = some zu ∧ v = zq - zu ∧
      (∃ xq, r.mds_composite = some xq ∧
        zq = (xq - ((cohort (with_composites mrows crows wrows)
            ⟨r.state, r.extract_id⟩).filterMap (fun x => x.mds_composite)).sum /
            ((cohort (with_composites mrows crows wrows)
              ⟨r.state, r.extract_id⟩).filterMap (fun x => x.mds_composite)).length) /
          sq ((((cohort (with_composites mrows crows wrows)
              ⟨r.state, r.extract_id⟩).filterMap (fun x => x.mds_composite)).map
              (fun x => (x - ((cohort (with_composites mrows crows wrows)
                ⟨r.state, r.extract_id⟩).filterMap (fun x => x.mds_composite)).sum /
                ((cohort (with_composites mrows crows wrows)
                  ⟨r.state, r.extract_id⟩).filterMap
                    (fun x => x.mds_composite)).length) ^ 2)).sum /
            ((cohort (with_composites mrows crows wrows)
              ⟨r.state, r.extract_id⟩).filterMap (fun x => x.mds_composite)).length)) ∧
      (∃ xu, r.claims_utilization = some xu ∧
        zu = (xu - ((cohort (with_composites mrows crows wrows)
            ⟨r.state, r.extract_id⟩).filterMap (fun x => x.claims_utilization)).sum /
            ((cohort (with_composites mrows crows wrows)
              ⟨r.state, r.extract_id⟩).filterMap (fun x => x.claims_utilization)).length) /
          sq ((((cohort (with_composites mrows crows wrows)
              ⟨r.state, r.extract_id⟩).filterMap (fun x => x.claims_utilization)).map
              (fun x => (x - ((cohort (with_composites mrows crows wrows)
                ⟨r.state, r.extract_id⟩).filterMap (fun x => x.claims_utilization)).sum /
                ((cohort (with_composites mrows crows wrows)
                  ⟨r.state, r.extract_id⟩).filterMap
                    (fun x => x.claims_utilization)).length) ^ 2)).sum /
            ((cohort (with_composites mrows crows wrows)
              ⟨r.state, r.extract_id⟩).filterMap (fun x => x.claims_utilization)).length)) := by
  obtain ⟨f, hf, rfl⟩ := crid_monthly_src hr
  have hv' : cridOf (zBuild (state_stats sq (with_composites mrows crows wrows)) f) =
      some v := hv
  obtain ⟨zq, zu, hzq, hzu, hvzz⟩ := cridOf_eq_some hv'
  obtain ⟨xq, hxq, hzqv⟩ := zBuild_mds_z_val sq hzq
  obtain ⟨xu, hxu, hzuv⟩ := zBuild_claims_z_val sq hzu
  exact ⟨zq, zu, hzq, hzu, hvzz, ⟨xq, hxq, hzqv⟩, ⟨xu, hxu, hzuv⟩⟩

/-! ### Evaluation of the pipeline on the concrete datasets -/

set_option maxRecDepth 10000

theorem exFac : all_facilities exM exC = Lfac := by decide

theorem exComp : with_composites exM exC exW = Lcomp := by
  unfold with_composites
  rw [exFac]
  norm_num [weight_values, weightFor, measure_weights, sqlMax, exW, Lfac, Lcomp,
    LfacOf, LcompOf, compBuild, omul, oadd, round2, List.filter, List.map, List.foldl]

theorem exStats : state_stats id Lcomp = [sTX] := by
  unfold state_stats
  norm_num [statsFor, cohort, stateKeyOf, avg, var_pop, stddev_pop, Lcomp, LcompOf,
    LfacOf, List.filter, List.map, List.dedup, List.filterMap, List.sum, sTX,
    List.dedup_cons_of_mem, List.dedup_cons_of_not_mem]
  all_goals simp

theorem exZrows : with_z_scores id exM exC exW = Lz := by
  unfold with_z_scores
  rw [exComp]
  simp only [exStats]
  norm_num [zBuild, zGate, zValue, sTX, Lcomp, LcompOf, LfacOf, Lz, LzOf,
    List.map, List.find?, List.filter]

theorem exCrid : with_crid id 2 Lz = LOUT.map (fun r => { r with flags := ([] : List String) }) := by
  unfold with_crid
  norm_num [cridBuild, windowRows, cridOf, stddev_pop, var_pop, Lz, LzOf, LOUT, LcridOf,
    List.map, List.filter, List.filterMap, List.sum]

theorem exOut : crid_monthly id 3 exM exC exW = LOUT := by
  unfold crid_monthly
  rw [exZrows, show (3 : ℕ) - 1 = 2 from rfl, exCrid]
  norm_num [insertBuild, flagsOf, flagIf, ogt, olt, outlierCond, LOUT, LcridOf,
    List.map, List.filterMap]

theorem exComp5 : with_composites exM exC exW5 = Lcomp5 := by
  unfold with_composites
  rw [exFac]
  norm_num [weight_values, weightFor, measure_weights, sqlMax, exW5, Lfac, Lcomp5,
    LfacOf, Lcomp5Of, compBuild, omul, oadd, round2, List.filter, List.map, List.foldl]

theorem exStats5 : state_stats id Lcomp5 = [s5TX] := by
  unfold state_stats
  norm_num [statsFor, cohort, stateKeyOf, avg, var_pop, stddev_pop, Lcomp5, Lcomp5Of,
    LfacOf, List.filter, List.map, List.dedup, List.filterMap, List.sum, s5TX,
    List.dedup_cons_of_mem, List.dedup_cons_of_not_mem]
  all_goals simp

theorem exZrows5 : with_z_scores id exM exC exW5 = Lz5 := by
  unfold with_z_scores
  rw [exComp5]
  simp only [exStats5]
  norm_num [zBuild, zGate, zValue, s5TX, Lcomp5, Lcomp5Of, LfacOf, Lz5, Lz5Of,
    List.map, List.find?, List.filter]

theorem exCrid5 : with_crid id 2 Lz5 = LOUT5.map (fun r => { r with flags := ([] : List String) }) := by
  unfold with_crid
  norm_num [cridBuild, windowRows, cridOf, stddev_pop, var_pop, Lz5, Lz5Of, LOUT5, L5Of,
    List.map, List.filter, List.filterMap, List.sum]

theorem exOut5 : crid_monthly id 3 exM exC exW5 = LOUT5 := by
  unfold crid_monthly
  rw [exZrows5, show (3 : ℕ) - 1 = 2 from rfl, exCrid5]
  norm_num [insertBuild, flagsOf, flagIf, ogt, olt, outlierCond, LOUT5, L5Of,
    List.map, List.filterMap]

theorem exSmallFac : all_facilities exSM exSC = [LfacOf "s" 0 0] := by decide

theorem exSmallComp : with_composites exSM exSC exW = [LcompOf "s" 0 0] := by
  unfold with_composites
  rw [exSmallFac]
  norm_num [weight_values, weightFor, measure_weights, sqlMax, exW, LfacOf, LcompOf,
    compBuild, omul, oadd, round2, List.filter, List.map, List.foldl]

theorem exSmallStats : state_stats id [LcompOf "s" 0 0] = [sSmall] := by
  unfold state_stats
  norm_num [statsFor, cohort, stateKeyOf, avg, var_pop, stddev_pop, LcompOf, LfacOf,
    List.filter, List.map, List.dedup, List.filterMap, List.sum, sSmall]

theorem exSmallZ : with_z_scores id exSM exSC exW = [LzSmall] := by
  unfold with_z_scores
  rw [exSmallComp]
  simp only [exSmallStats]
  norm_num [zBuild, zGate, zValue, sSmall, LcompOf, LfacOf, LzSmall,
    List.map, List.find?, List.filter]

theorem exSmallOut : crid_monthly id 3 exSM exSC exW = [LSmall] := by
  unfold crid_monthly
  rw [exSmallZ, show (3 : ℕ) - 1 = 2 from rfl]
  norm_num [with_crid, cridBuild, windowRows, cridOf, stddev_pop, var_pop,
    insertBuild, flagsOf, flagIf, ogt, olt, outlierCond, LzSmall, LSmall,
    List.map, List.filter, List.filterMap]

theorem exMissFac : all_facilities exMissM exMissC =
    [⟨"m", 1, 1, "UT", some 1, some 1, some 1, none, some 1, some 1, 5, 0, false⟩] := by
  decide

theorem exMissComp : with_composites exMissM exMissC exW = [CompMiss] := by
  unfold with_composites
  rw [exMissFac]
  norm_num [weight_values, weightFor, measure_weights, sqlMax, exW, CompMiss,
    compBuild, omul, oadd, round2, List.filter, List.map, List.foldl]

theorem exSupFac : all_facilities exSupM exMissC =
    [⟨"m", 1, 1, "UT", some 1, some 1, some 1, some 1, some 1, some 1, 5, 1, false⟩] := by
  decide

theorem exSupComp : with_composites exSupM exMissC exW = [CompSup] := by
  unfold with_composites
  rw [exSupFac]
  norm_num [weight_values, weightFor, measure_weights, sqlMax, exW, CompSup,
    compBuild, omul, oadd, round2, List.filter, List.map, List.foldl]

theorem presentBit_sum_le (v1 v2 v3 v4 v5 v6 : Option ℚ) (s1 s2 s3 s4 s5 s6 : ℕ) :
    presentBit v1 s1 + presentBit v2 s2 + presentBit v3 s3 + presentBit v4 s4 +
      presentBit v5 s5 + presentBit v6 s6 ≤ 6 := by
  have b1 := presentBit_le_one v1 s1
  have b2 := presentBit_le_one v2 s2
  have b3 := presentBit_le_one v3 s3
  have b4 := presentBit_le_one v4 s4
  have b5 := presentBit_le_one v5 s5
  have b6 := presentBit_le_one v6 s6
  omega

theorem facBuild_present_le (cb : List ClaimsBase) (m : MdsBase) :
    (facBuild cb m).measures_present ≤ 6 := by
  simp only [facBuild]
  exact presentBit_sum_le _ _ _ _ _ _ _ _ _ _ _ _

/-- C3 (volatility windowing): for every `with_crid` row, the volatility is
NULL when the row's CRID value is NULL, and otherwise equals the population
standard deviation of the non-NULL CRID values of the window frame; the frame
consists of the facility's periods at or before the current one with fewer
than W facility-periods strictly between them and the current period (the
current period and the W-1 immediately preceding ones).  On a facility with
valid CRID values 0.5, 1.0, 1.5 at 3 consecutive periods and W = 3, the three
volatilities are the population stddevs of [0.5], [0.5, 1], and [0.5, 1, 1.5]
(population variance of the last window: 1/6, stddev about 0.4082); with the
middle value NULL, the third window's stddev is over [0.5, 1.5] only. -/
theorem claim3_volatility_windowing :
    (∀ (sq : ℚ → ℚ) (W : ℕ), (W = 3 ∨ W = 4) → ∀ (zs : List ZRow) (r : CridRow),
      r ∈ with_crid sq (W - 1) zs →
      ((r.crid_value = none → r.crid_volatility = none) ∧
       (r.crid_value ≠ none →
         r.crid_volatility =
           stddev_pop sq ((windowRows zs r.ccn r.extract_id (W - 1)).filterMap cridOf)) ∧
       (∀ x, x ∈ windowRows zs r.ccn r.extract_id (W - 1) ↔
         (x ∈ zs ∧ x.ccn = r.ccn ∧ x.extract_id ≤ r.extract_id ∧
           (zs.filter (fun y => decide (y.ccn = r.ccn ∧ x.extract_id < y.extract_id ∧
             y.extract_id ≤ r.extract_id))).length < W)))) ∧
    (∀ sq : ℚ → ℚ, (with_crid sq 2 exZ3).map (fun r => r.crid_volatility) =
      [stddev_pop sq [1 / 2], stddev_pop sq [1 / 2, 1],
        stddev_pop sq [1 / 2, 1, 3 / 2]]) ∧
    (∀ sq : ℚ → ℚ, (with_crid sq 2 exZ3null).map (fun r => r.crid_volatility) =
      [stddev_pop sq [1 / 2], none, stddev_pop sq [1 / 2, 3 / 2]]) ∧
    var_pop [1 / 2, 1, 3 / 2] = 1 / 6 := by
  refine ⟨?_, ?_, ?_, ?_⟩
  · intro sq W hW zs r hr
    unfold with_crid at hr
    obtain ⟨z, hz, he⟩ := List.mem_map.mp hr
    subst he
    refine ⟨?_, ?_, ?_⟩
    · intro h
      exact cridBuild_vol_of_none h
    · intro h
      exact cridBuild_vol_of_some h
    · intro x
      rw [windowRows_mem_iff]
      have h1 : ∀ n : ℕ, n ≤ W - 1 ↔ n < W := by
        intro n
        rcases hW with h | h <;> subst h <;> omega
      constructor
      · rintro ⟨a, b, c, d⟩
        exact ⟨a, b, c, (h1 _).mp d⟩
      · rintro ⟨a, b, c, d⟩
        exact ⟨a, b, c, (h1 _).mpr d⟩
  · intro sq
    norm_num [with_crid, cridBuild, windowRows, cridOf, exZ3, List.map, List.filter,
      List.filterMap]
  · intro sq
    norm_num [with_crid, cridBuild, windowRows, cridOf, exZ3null, List.map, List.filter,
      List.filterMap]
  · norm_num [var_pop, List.map, List.sum]

/-- C10 (volatility NULL-ness iff): for every output row, `crid_volatility`
is non-NULL exactly when `crid_value` is (the window always contains the
current row's own valid value); and at a period whose window holds no other
valid value, the volatility is the population stddev of the single current
value, i.e. 0, not NULL (using that the engine's square root sends 0 to 0). -/
theorem claim10_volatility_iff (sq : ℚ → ℚ) (w : ℕ) (mrows : List MdsRow)
    (crows : List ClaimsRow) (wrows : List WeightRow) (hsq : sq 0 = 0) (r : CridRow)
    (hr : r ∈ crid_monthly sq w mrows crows wrows) :
    (r.crid_volatility ≠ none ↔ r.crid_value ≠ none) ∧
    (∀ v, r.crid_value = some v →
      (windowRows (with_z_scores sq mrows crows wrows) r.ccn r.extract_id
        (w - 1)).filterMap cridOf = [v] →
      r.crid_volatility = some 0) := by
  obtain ⟨f, hf, rfl⟩ := crid_monthly_src hr
  constructor
  · constructor
    · intro hvol
      by_contra hcv
      have hcv' : cridOf (zBuild (state_stats sq (with_composites mrows crows wrows)) f) =
          none := hcv
      exact hvol (cridBuild_vol_of_none hcv')
    · intro hcv
      have hcv' : cridOf (zBuild (state_stats sq (with_composites mrows crows wrows)) f) ≠
          none := hcv
      have heq := @cridBuild_vol_of_some sq (w - 1)
        (with_z_scores sq mrows crows wrows) _ hcv'
      show (cridBuild sq (w - 1) (with_z_scores sq mrows crows wrows)
        (zBuild (state_stats sq (with_composites mrows crows wrows)) f)).crid_volatility ≠
        none
      rw [heq]
      have hzmem := @mem_with_z_scores sq mrows crows wrows f hf
      have hwin := self_mem_windowRows hzmem (w - 1)
      obtain ⟨u, hu⟩ := Option.ne_none_iff_exists.mp hcv'
      have humem : u ∈ (windowRows (with_z_scores sq mrows crows wrows)
          (zBuild (state_stats sq (with_composites mrows crows wrows)) f).ccn
          (zBuild (state_stats sq (with_composites mrows crows wrows)) f).extract_id
          (w - 1)).filterMap cridOf :=
        List.mem_filterMap.mpr ⟨_, hwin, hu.symm⟩
      have hnil : (windowRows (with_z_scores sq mrows crows wrows)
          (zBuild (state_stats sq (with_composites mrows crows wrows)) f).ccn
          (zBuild (state_stats sq (with_composites mrows crows wrows)) f).extract_id
          (w - 1)).filterMap cridOf ≠ [] := by
        intro hh
        rw [hh] at humem
        exact absurd humem (List.not_mem_nil u)
      simp [stddev_pop, hnil]
  · intro v hv hwin
    have hv' : cridOf (zBuild (state_stats sq (with_composites mrows crows wrows)) f) =
        some v := hv
    have heq := @cridBuild_vol_of_some sq (w - 1)
      (with_z_scores sq mrows crows wrows)
      (zBuild (state_stats sq (with_composites mrows crows wrows)) f)
      (by simp [hv'])
    have hwin' : (windowRows (with_z_scores sq mrows crows wrows)
        (zBuild (state_stats sq (with_composites mrows crows wrows)) f).ccn
        (zBuild (state_stats sq (with_composites mrows crows wrows)) f).extract_id
        (w - 1)).filterMap cridOf = [v] := hwin
    show (cridBuild sq (w - 1) (with_z_scores sq mrows crows wrows)
      (zBuild (state_stats sq (with_composites mrows crows wrows)) f)).crid_volatility =
      some 0
    rw [heq, hwin']
    simp [stddev_pop, var_pop_single, hsq]

/-- C4 (completeness tracker): every pipeline row satisfies
`completeness_pct = round(measures_present / 6 * 100, 2)`,
`is_complete ↔ measures_present = 6` and `measures_present ≤ 6`; a facility
with one measure simply absent has `measures_present = 5`,
`completeness_pct = 83.33`, `is_complete = false`; a suppressed-but-present
measure does not count toward presence but does count as suppressed. -/
theorem claim4_completeness_tracker :
    (∀ (mrows : List MdsRow) (crows : List ClaimsRow) (wrows : List WeightRow)
        (r : Composite), r ∈ with_composites mrows crows wrows →
      (r.completeness_pct = round2 ((r.measures_present : ℚ) * 100 / 6) ∧
       (r.is_complete = true ↔ r.measures_present = 6) ∧
       r.measures_present ≤ 6)) ∧
    (with_composites exMissM exMissC exW = [CompMiss] ∧
      CompMiss.measures_present = 5 ∧ CompMiss.completeness_pct = 8333 / 100 ∧
      CompMiss.is_complete = false) ∧
    (with_composites exSupM exMissC exW = [CompSup] ∧
      CompSup.measures_present = 5 ∧ CompSup.measures_suppressed = 1 ∧
      CompSup.is_complete = false) := by
  refine ⟨?_, ⟨exMissComp, rfl, rfl, rfl⟩, ⟨exSupComp, rfl, rfl, rfl⟩⟩
  intro mrows crows wrows r hr
  obtain ⟨f, hf, rfl⟩ := with_composites_src hr
  obtain ⟨mb, hmb, he⟩ := List.mem_map.mp hf
  subst he
  exact ⟨rfl, facBuild_complete_iff _ _, facBuild_present_le _ _⟩

/-- C8 (flag semantics): every threshold flag is assigned by a strict
comparison and never when its operand is NULL (so `crid_value = 2.0` yields no
HIGH_POSITIVE_CRID while `2.0001` does); the extreme flags are additive to the
high flags; and every output row in a (state, extract_id) whose
complete-facility cohort has fewer than 10 members carries SMALL_STATE,
regardless of its own completeness. -/
theorem claim8_flag_semantics :
    (∀ r : CridRow,
      (("HIGH_POSITIVE_CRID" ∈ flagsOf r) ↔ ∃ v, r.crid_value = some v ∧ 2 < v) ∧
      (("HIGH_NEGATIVE_CRID" ∈ flagsOf r) ↔ ∃ v, r.crid_value = some v ∧ v < -2) ∧
      (("EXTREME_POSITIVE_CRID" ∈ flagsOf r) ↔ ∃ v, r.crid_value = some v ∧ 3 < v) ∧
      (("EXTREME_NEGATIVE_CRID" ∈ flagsOf r) ↔ ∃ v, r.crid_value = some v ∧ v < -3) ∧
      (("HIGH_VOLATILITY" ∈ flagsOf r) ↔ ∃ v, r.crid_volatility = some v ∧ 3 / 2 < v)) ∧
    (∀ r : CridRow, r.crid_value = some 2 → "HIGH_POSITIVE_CRID" ∉ flagsOf r) ∧
    (∀ r : CridRow, r.crid_value = some (20001 / 10000) →
      "HIGH_POSITIVE_CRID" ∈ flagsOf r) ∧
    (∀ r : CridRow, ∀ v, r.crid_value = some v → 3 < v →
      "HIGH_POSITIVE_CRID" ∈ flagsOf r ∧ "EXTREME_POSITIVE_CRID" ∈ flagsOf r) ∧
    (∀ (sq : ℚ → ℚ) (w : ℕ) (mrows : List MdsRow) (crows : List ClaimsRow)
        (wrows : List WeightRow) (r : CridRow),
      r ∈ crid_monthly sq w mrows crows wrows →
      (r.flags = flagsOf r ∧
       ((cohort (with_composites mrows crows wrows) ⟨r.state, r.extract_id⟩).length < 10 →
         "SMALL_STATE" ∈ r.flags))) := by
  have hmain : ∀ r : CridRow,
      (("HIGH_POSITIVE_CRID" ∈ flagsOf r) ↔ ∃ v, r.crid_value = some v ∧ 2 < v) ∧
      (("HIGH_NEGATIVE_CRID" ∈ flagsOf r) ↔ ∃ v, r.crid_value = some v ∧ v < -2) ∧
      (("EXTREME_POSITIVE_CRID" ∈ flagsOf r) ↔ ∃ v, r.crid_value = some v ∧ 3 < v) ∧
      (("EXTREME_NEGATIVE_CRID" ∈ flagsOf r) ↔ ∃ v, r.crid_value = some v ∧ v < -3) ∧
      (("HIGH_VOLATILITY" ∈ flagsOf r) ↔ ∃ v, r.crid_volatility = some v ∧ 3 / 2 < v) := by
    intro r
    refine ⟨?_, ?_, ?_, ?_, ?_⟩ <;>
      · rw [mem_flagsOf]
        simp [ogt_iff, olt_iff]
  refine ⟨hmain, ?_, ?_, ?_, ?_⟩
  · intro r hv hmem
    obtain ⟨u, hu, hgt⟩ := ((hmain r).1).mp hmem
    rw [hv] at hu
    rw [← Option.some_inj.mp hu] at hgt
    exact absurd hgt (by norm_num)
  · intro r hv
    exact ((hmain r).1).mpr ⟨20001 / 10000, hv, by norm_num⟩
  · intro r v hv h3
    exact ⟨((hmain r).1).mpr ⟨v, hv, by linarith⟩,
      ((hmain r).2.2.1).mpr ⟨v, hv, h3⟩⟩
  · intro sq w mrows crows wrows r hr
    obtain ⟨f, hf, rfl⟩ := crid_monthly_src hr
    refine ⟨rfl, ?_⟩
    intro hlen
    have hsmall : (zBuild (state_stats sq (with_composites mrows crows wrows))
        f).is_small_state = true := by
      rw [zBuild_small_state sq f]
      exact decide_eq_true_eq.mpr hlen
    show "SMALL_STATE" ∈ flagsOf (cridBuild sq (w - 1) (with_z_scores sq mrows crows wrows)
      (zBuild (state_stats sq (with_composites mrows crows wrows)) f))
    rw [mem_flagsOf]
    exact Or.inr (Or.inl ⟨hsmall, rfl⟩)

/-- Counting elements that satisfy a predicate met by at most one element of a
duplicate-free list. -/
theorem countP_nodup_unique {α : Type} [DecidableEq α] :
    ∀ (l : List α) (p : α → Bool), l.Nodup →
      (∀ a ∈ l, ∀ b ∈ l, p a = true → p b = true → a = b) →
      l.countP p = if ∃ a ∈ l, p a = true then 1 else 0 := by
  intro l
  induction l with
  | nil => intro p _ _; simp
  | cons a t ih =>
    intro p hnd huniq
    rw [List.countP_cons]
    have hndt := (List.nodup_cons.mp hnd).2
    have hat := (List.nodup_cons.mp hnd).1
    by_cases hpa : p a = true
    · have hzero : t.countP p = 0 := by
        rw [List.countP_eq_zero]
        intro b hb
        intro hpb
        have hab : a = b := huniq a (List.mem_cons_self a t) b (List.mem_cons_of_mem a hb)
          hpa hpb
        exact hat (hab ▸ hb)
      have hex : ∃ x ∈ a :: t, p x = true := ⟨a, List.mem_cons_self a t, hpa⟩
      rw [hzero, if_pos hex]
      simp [hpa]
    · have ht := ih p hndt (fun x hx y hy hpx hpy =>
        huniq x (List.mem_cons_of_mem a hx) y (List.mem_cons_of_mem a hy) hpx hpy)
      rw [ht]
      have hiff : (∃ x ∈ a :: t, p x = true) ↔ (∃ x ∈ t, p x = true) := by
        constructor
        · rintro ⟨x, hx, hpx⟩
          rcases List.mem_cons.mp hx with rfl | hx'
          · exact absurd hpx hpa
          · exact ⟨x, hx', hpx⟩
        · rintro ⟨x, hx, hpx⟩
          exact ⟨x, List.mem_cons_of_mem a hx, hpx⟩
      by_cases he : ∃ x ∈ t, p x = true
      · rw [if_pos he, if_pos (hiff.mpr he)]
        simp [hpa]
      · rw [if_neg he, if_neg (fun hh => he (hiff.mp hh))]
        simp [hpa]

/-- C6 counterexample: a (facility, period) whose observations are all in the
utilization (claims) family yields NO output row — `all_facilities` is a LEFT
join from the quality side, so claims-only facility-periods are dropped,
refuting "exactly one CridRecord per (facility_id, period_id) present in the
Measure Source ... whether quality, utilization, or both". -/
theorem claim6_counterexample :
    (∃ cr ∈ exUtilOnlyC, cr.ccn = "u" ∧ cr.extract_id = 1) ∧
    crid_monthly id 3 ([] : List MdsRow) exUtilOnlyC exW = [] := by
  constructor
  · exact ⟨⟨"u", 1, "551", some 1, false⟩, List.mem_cons_self _ _, rfl, rfl⟩
  · rfl

/-- C6 amended (coverage restricted to the quality family): assuming
(ccn, extract_id) functionally determines (as_of_date, state) among the
quality rows, the output has exactly one row per (ccn, extract_id) that has at
least one quality-family observation, and none otherwise. -/
theorem claim6_output_coverage (sq : ℚ → ℚ) (w : ℕ) (mrows : List MdsRow)
    (crows : List ClaimsRow) (wrows : List WeightRow)
    (hfd : ∀ r1 ∈ mrows, ∀ r2 ∈ mrows, r1.measure_code ∈ qualityCodes →
      r2.measure_code ∈ qualityCodes → r1.ccn = r2.ccn → r1.extract_id = r2.extract_id →
      r1.as_of_date = r2.as_of_date ∧ r1.state = r2.state)
    (c : String) (e : ℕ) :
    (crid_monthly sq w mrows crows wrows).countP
      (fun r => decide (r.ccn = c ∧ r.extract_id = e)) =
    if ∃ m ∈ mrows, m.measure_code ∈ qualityCodes ∧ m.ccn = c ∧ m.extract_id = e
    then 1 else 0 := by
  have huniq : ∀ a ∈ ((mdsRowsIn mrows).map mdsKeyOf).dedup,
      ∀ b ∈ ((mdsRowsIn mrows).map mdsKeyOf).dedup,
      (a.ccn = c ∧ a.extract_id = e) → (b.ccn = c ∧ b.extract_id = e) → a = b := by
    intro a ha b hb hpa hpb
    obtain ⟨r1, hr1, hk1⟩ := List.mem_map.mp (List.mem_dedup.mp ha)
    obtain ⟨r2, hr2, hk2⟩ := List.mem_map.mp (List.mem_dedup.mp hb)
    have hm1 := List.mem_filter.mp hr1
    have hm2 := List.mem_filter.mp hr2
    have hcc : r1.ccn = r2.ccn := by
      have e1 : r1.ccn = a.ccn := by rw [← hk1]; rfl
      have e2 : r2.ccn = b.ccn := by rw [← hk2]; rfl
      rw [e1, e2, hpa.1, hpb.1]
    have hee : r1.extract_id = r2.extract_id := by
      have e1 : r1.extract_id = a.extract_id := by rw [← hk1]; rfl
      have e2 : r2.extract_id = b.extract_id := by rw [← hk2]; rfl
      rw [e1, e2, hpa.2, hpb.2]
    obtain ⟨has, hst⟩ := hfd r1 hm1.1 r2 hm2.1 (decide_eq_true_eq.mp hm1.2)
      (decide_eq_true_eq.mp hm2.2) hcc hee
    rw [← hk1, ← hk2]
    simp [mdsKeyOf, MdsKey.mk.injEq, hcc, hee, has, hst]
  unfold crid_monthly with_crid with_z_scores with_composites all_facilities mds_base
  rw [List.countP_map, List.countP_map, List.countP_map, List.countP_map,
    List.countP_map, List.countP_map]
  show List.countP (fun a : MdsKey => decide (a.ccn = c ∧ a.extract_id = e))
      (((mdsRowsIn mrows).map mdsKeyOf).dedup) =
    if ∃ m ∈ mrows, m.measure_code ∈ qualityCodes ∧ m.ccn = c ∧ m.extract_id = e
    then 1 else 0
  rw [countP_nodup_unique _ _ (List.nodup_dedup _)
    (fun a ha b hb hpa hpb =>
      huniq a ha b hb (decide_eq_true_eq.mp hpa) (decide_eq_true_eq.mp hpb))]
  by_cases hE : ∃ m ∈ mrows, m.measure_code ∈ qualityCodes ∧ m.ccn = c ∧ m.extract_id = e
  · rw [if_pos hE]
    obtain ⟨m, hm, hq, hc, he⟩ := hE
    rw [if_pos ⟨mdsKeyOf m,
      List.mem_dedup.mpr (List.mem_map_of_mem _
        (List.mem_filter.mpr ⟨hm, decide_eq_true_eq.mpr hq⟩)),
      decide_eq_true_eq.mpr (⟨hc, he⟩ : (mdsKeyOf m).ccn = c ∧ (mdsKeyOf m).extract_id = e)⟩]
  · rw [if_neg hE]
    rw [if_neg ?hne]
    case hne =>
      rintro ⟨a, ha, hpa⟩
      obtain ⟨r1, hr1, hk1⟩ := List.mem_map.mp (List.mem_dedup.mp ha)
      have hm1 := List.mem_filter.mp hr1
      have hpa' : a.ccn = c ∧ a.extract_id = e := decide_eq_true_eq.mp hpa
      refine hE ⟨r1, hm1.1, decide_eq_true_eq.mp hm1.2, ?_, ?_⟩
      · have e1 : r1.ccn = a.ccn := by rw [← hk1]; rfl
        rw [e1, hpa'.1]
      · have e1 : r1.extract_id = a.extract_id := by rw [← hk1]; rfl
        rw [e1, hpa'.2]

/-- C7 counterexample: with the weight definition for code 410 missing the
engine raises no error at all — the run completes successfully and inserts
rows whose quality composites and CRID values are silently NULL; and with two
definitions for one code, `MAX` silently picks the larger weight. -/
theorem claim7_counterexample :
    weightFor exW5 "410" = none ∧
    main_run id 3 true exM exC exW5 ⟨none⟩ = (Except.ok (), ⟨some LOUT5⟩) ∧
    LOUT5 ≠ [] ∧
    (∀ r ∈ LOUT5, r.is_complete = true ∧ r.mds_composite = none ∧
      r.crid_value = none) ∧
    weightFor exWdup "410" = some 2 := by
  refine ⟨by decide, ?_, by decide, by decide, by decide⟩
  show main_run id 3 true exM exC exW5 ⟨none⟩ = (Except.ok (), ⟨some LOUT5⟩)
  unfold main_run
  rw [if_pos (Or.inl rfl), if_pos rfl]
  rw [show Int.toNat 3 = 3 from rfl, exOut5]

/-- C7 amended: a missing weight is not detected; it silently propagates as
NULL through every quality composite, so every output row of such a run has a
NULL quality composite, NULL quality z-score, NULL CRID and NULL volatility
(and dually for a missing utilization weight); duplicates silently resolve to
the maximum weight. -/
theorem claim7_missing_weight (sq : ℚ → ℚ) (w : ℕ) (mrows : List MdsRow)
    (crows : List ClaimsRow) (wrows : List WeightRow)
    (h410 : weightFor wrows "410" = none) :
    ∀ r ∈ crid_monthly sq w mrows crows wrows,
      r.mds_composite = none ∧ r.mds_z_score = none ∧ r.crid_value = none ∧
      r.crid_volatility = none := by
  have hnone : ∀ g ∈ with_composites mrows crows wrows, g.mds_composite = none := by
    intro g hg
    obtain ⟨fg, _, rfl⟩ := with_composites_src hg
    by_cases hc : fg.is_complete = true
    · rw [mds_composite_of_complete hc]
      have hw : (weight_values wrows).w_410 = none := h410
      rw [hw]
      rfl
    · exact mds_composite_of_incomplete (by simpa using hc)
  intro r hr
  obtain ⟨f, hf, rfl⟩ := crid_monthly_src hr
  have hmz : (zBuild (state_stats sq (with_composites mrows crows wrows)) f).mds_z_score
      = none := by
    by_contra hne
    obtain ⟨_, _, d, hd, _⟩ := (zBuild_mds_z_char sq hf).mp hne
    obtain ⟨hqs, _⟩ := stddev_pop_eq_some hd
    obtain ⟨g, hgmem, hgne⟩ : ∃ g ∈ cohort (with_composites mrows crows wrows)
        ⟨f.state, f.extract_id⟩, g.mds_composite ≠ none := by
      by_contra hall
      push_neg at hall
      exact hqs (List.filterMap_eq_nil_iff.mpr hall)
    exact hgne (hnone g (cohort_subset hgmem).1)
  have hcv : cridOf (zBuild (state_stats sq (with_composites mrows crows wrows)) f)
      = none := by
    unfold cridOf
    rw [hmz]
  exact ⟨hnone f hf, hmz, hcv, cridBuild_vol_of_none hcv⟩

/-- C5 counterexample: a failure during the INSERT after a prior successful
materialization leaves the committed state with the previous output destroyed
and an EMPTY table in its place — neither the old output nor a complete new
one — because `drop_and_create_table` commits the DROP before the INSERT
transaction starts.  This refutes the all-or-nothing replacement claim. -/
theorem claim5_counterexample :
    main_run id 3 false [] [] [] ⟨some [rPrev]⟩ =
      (Except.error "materialization failed", ⟨some []⟩) ∧
    (⟨some []⟩ : DbState) ≠ ⟨some [rPrev]⟩ ∧
    (⟨some []⟩ : DbState).crid_monthly_table ≠ none := by
  refine ⟨?_, by decide, by decide⟩
  unfold main_run
  rw [if_pos (Or.inl rfl)]
  rfl

/-- C5 amended: the run is all-or-nothing only up to the drop/create commit:
on a valid window, a successful transform replaces the table with the new
rows, while a failed transform leaves the table dropped and recreated empty
(the prior output is destroyed); only an invalid window (rejected before the
connection) leaves the database untouched. -/
theorem claim5_materialization_commits (sq : ℚ → ℚ) (w : ℤ) (ok : Bool)
    (mrows : List MdsRow) (crows : List ClaimsRow) (wrows : List WeightRow)
    (db : DbState) :
    ((w = 3 ∨ w = 4) →
      main_run sq w ok mrows crows wrows db =
        if ok then (Except.ok (), ⟨some (crid_monthly sq w.toNat mrows crows wrows)⟩)
        else (Except.error "materialization failed", ⟨some []⟩)) ∧
    (¬(w = 3 ∨ w = 4) →
      main_run sq w ok mrows crows wrows db =
        (Except.error "volatility_window must be 3 or 4", db)) := by
  unfold main_run
  constructor
  · intro h
    rw [if_pos h]
  · intro h
    rw [if_neg h]

/-- C9 (volatility-window validation): any requested window outside {3, 4} is
rejected with a configuration error before any data is read or modified — the
database state is returned untouched — while for 3 or 4 the run proceeds to a
full materialization. -/
theorem claim9_window_validation (sq : ℚ → ℚ) (w : ℤ) (ok : Bool)
    (mrows : List MdsRow) (crows : List ClaimsRow) (wrows : List WeightRow)
    (db : DbState) :
    ((w ≠ 3 ∧ w ≠ 4) →
      main_run sq w ok mrows crows wrows db =
        (Except.error "volatility_window must be 3 or 4", db)) ∧
    ((w = 3 ∨ w = 4) → ok = true →
      main_run sq w ok mrows crows wrows db =
        (Except.ok (), ⟨some (crid_monthly sq w.toNat mrows crows wrows)⟩)) := by
  unfold main_run
  constructor
  · intro h
    rw [if_neg (by tauto)]
  · intro h hok
    subst hok
    rw [if_pos h, if_pos rfl]

/-- Witness for C1 at the concrete ten-facility cohort. -/
theorem claim1_gating_witness :
    LcridOf "a" 0 (-1) ∈ crid_monthly id 3 exM exC exW ∧
    ((LcridOf "a" 0 (-1)).crid_value ≠ none ↔
      ((LcridOf "a" 0 (-1)).mds_z_score ≠ none ∧
        (LcridOf "a" 0 (-1)).claims_z_score ≠ none)) := by
  have hmem : LcridOf "a" 0 (-1) ∈ crid_monthly id 3 exM exC exW := by
    rw [exOut]
    exact List.mem_cons_self _ _
  exact ⟨hmem, (claim1_gating_invariant id 3 exM exC exW _ hmem).1⟩

/-- Witness for C2 at the concrete ten-facility cohort. -/
theorem claim2_score_identity_witness :
    LcridOf "a" 0 (-1) ∈ crid_monthly id 3 exM exC exW ∧
    (LcridOf "a" 0 (-1)).crid_value = some 0 ∧
    (∃ zq zu, (LcridOf "a" 0 (-1)).mds_z_score = some zq ∧
      (LcridOf "a" 0 (-1)).claims_z_score = some zu ∧ (0 : ℚ) = zq - zu) := by
  have hmem : LcridOf "a" 0 (-1) ∈ crid_monthly id 3 exM exC exW := by
    rw [exOut]
    exact List.mem_cons_self _ _
  refine ⟨hmem, rfl, ?_⟩
  obtain ⟨zq, zu, h1, h2, h3, _, _⟩ :=
    claim2_score_identity id 3 exM exC exW _ hmem 0 rfl
  exact ⟨zq, zu, h1, h2, h3⟩

/-- Witness for C3 at the 0.5 / 1.0 / 1.5 three-period scenario. -/
theorem claim3_volatility_witness :
    ((3 : ℕ) = 3 ∨ (3 : ℕ) = 4) ∧
    cridBuild id (3 - 1) exZ3 zX3 ∈ with_crid id (3 - 1) exZ3 ∧
    (cridBuild id (3 - 1) exZ3 zX3).crid_value ≠ none ∧
    (cridBuild id (3 - 1) exZ3 zX3).crid_volatility =
      stddev_pop id ((windowRows exZ3 (cridBuild id (3 - 1) exZ3 zX3).ccn
        (cridBuild id (3 - 1) exZ3 zX3).extract_id (3 - 1)).filterMap cridOf) := by
  have hz3 : zX3 ∈ exZ3 := by
    show zX3 ∈ [_, _, zX3]
    exact List.mem_cons_of_mem _ (List.mem_cons_of_mem _ (List.mem_cons_self _ _))
  have hmem : cridBuild id (3 - 1) exZ3 zX3 ∈ with_crid id (3 - 1) exZ3 :=
    List.mem_map_of_mem _ hz3
  have hne : (cridBuild id (3 - 1) exZ3 zX3).crid_value ≠ none := by decide
  exact ⟨Or.inl rfl, hmem, hne,
    (claim3_volatility_windowing.1 id 3 (Or.inl rfl) exZ3 _ hmem).2.1 hne⟩

/-- Witness for C4 at the missing-measure scenario. -/
theorem claim4_completeness_witness :
    CompMiss ∈ with_composites exMissM exMissC exW ∧
    (CompMiss.is_complete = true ↔ CompMiss.measures_present = 6) ∧
    CompMiss.completeness_pct = round2 ((CompMiss.measures_present : ℚ) * 100 / 6) := by
  have hmem : CompMiss ∈ with_composites exMissM exMissC exW := by
    rw [exMissComp]
    exact List.mem_cons_self _ _
  have h := claim4_completeness_tracker.1 exMissM exMissC exW CompMiss hmem
  exact ⟨hmem, h.2.1, h.1⟩

/-- Witness for C5 at a concrete failing run over a non-empty prior output. -/
theorem claim5_commits_witness :
    ((3 : ℤ) = 3 ∨ (3 : ℤ) = 4) ∧
    main_run id 3 false [] [] [] ⟨some [rPrev]⟩ =
      (Except.error "materialization failed", ⟨some []⟩) := by
  refine ⟨Or.inl rfl, ?_⟩
  have h := (claim5_materialization_commits id 3 false [] [] [] ⟨some [rPrev]⟩).1
    (Or.inl rfl)
  simpa using h

/-- Witness for C6 at the ten-facility dataset and the key ("a", 1). -/
theorem claim6_coverage_witness :
    (∀ r1 ∈ exM, ∀ r2 ∈ exM, r1.measure_code ∈ qualityCodes →
      r2.measure_code ∈ qualityCodes → r1.ccn = r2.ccn → r1.extract_id = r2.extract_id →
      r1.as_of_date = r2.as_of_date ∧ r1.state = r2.state) ∧
    (crid_monthly id 3 exM exC exW).countP
      (fun r => decide (r.ccn = "a" ∧ r.extract_id = 1)) =
    if ∃ m ∈ exM, m.measure_code ∈ qualityCodes ∧ m.ccn = "a" ∧ m.extract_id = 1
    then 1 else 0 := by
  refine ⟨by decide, ?_⟩
  exact claim6_output_coverage id 3 exM exC exW (by decide) "a" 1

/-- Witness for C7 at the missing-410-weight run. -/
theorem claim7_missing_weight_witness :
    weightFor exW5 "410" = none ∧
    L5Of "a" 0 (-1) ∈ crid_monthly id 3 exM exC exW5 ∧
    (L5Of "a" 0 (-1)).mds_composite = none ∧
    (L5Of "a" 0 (-1)).crid_value = none := by
  have hmem : L5Of "a" 0 (-1) ∈ crid_monthly id 3 exM exC exW5 := by
    rw [exOut5]
    exact List.mem_cons_self _ _
  have h := claim7_missing_weight id 3 exM exC exW5 (by decide) _ hmem
  exact ⟨by decide, hmem, h.1, h.2.2.1⟩

/-- Witness for C8 at the one-facility (small cohort) run and the flag
boundary value 2.0. -/
theorem claim8_flag_witness :
    LSmall ∈ crid_monthly id 3 exSM exSC exW ∧
    (cohort (with_composites exSM exSC exW) ⟨LSmall.state, LSmall.extract_id⟩).length
      < 10 ∧
    "SMALL_STATE" ∈ LSmall.flags ∧
    ({ crid_value := some 2 } : CridRow).crid_value = some 2 ∧
    "HIGH_POSITIVE_CRID" ∉ flagsOf ({ crid_value := some 2 } : CridRow) := by
  have hmem : LSmall ∈ crid_monthly id 3 exSM exSC exW := by
    rw [exSmallOut]
    exact List.mem_cons_self _ _
  have hlen : (cohort (with_composites exSM exSC exW)
      ⟨LSmall.state, LSmall.extract_id⟩).length < 10 := by
    rw [exSmallComp]
    decide
  refine ⟨hmem, hlen, ?_, rfl, ?_⟩
  · exact (claim8_flag_semantics.2.2.2.2 id 3 exSM exSC exW LSmall hmem).2 hlen
  · exact claim8_flag_semantics.2.1 _ rfl

/-- Witness for C9 at the rejected window 5 and the accepted window 3. -/
theorem claim9_window_witness :
    ((5 : ℤ) ≠ 3 ∧ (5 : ℤ) ≠ 4) ∧
    main_run id 5 true [] [] [] ⟨some [rPrev]⟩ =
      (Except.error "volatility_window must be 3 or 4", ⟨some [rPrev]⟩) ∧
    ((3 : ℤ) = 3 ∨ (3 : ℤ) = 4) ∧
    main_run id 3 true [] [] [] ⟨none⟩ =
      (Except.ok (), ⟨some (crid_monthly id (Int.toNat 3) [] [] [])⟩) := by
  refine ⟨by decide, ?_, Or.inl rfl, ?_⟩
  · exact (claim9_window_validation id 5 true [] [] [] ⟨some [rPrev]⟩).1 (by decide)
  · exact (claim9_window_validation id 3 true [] [] [] ⟨none⟩).2 (Or.inl rfl) rfl

/-- Witness for C10 at the concrete ten-facility cohort. -/
theorem claim10_volatility_witness :
    (id (0 : ℚ) = 0) ∧ LcridOf "a" 0 (-1) ∈ crid_monthly id 3 exM exC exW ∧
    ((LcridOf "a" 0 (-1)).crid_volatility ≠ none ↔
      (LcridOf "a" 0 (-1)).crid_value ≠ none) := by
  have hmem : LcridOf "a" 0 (-1) ∈ crid_monthly id 3 exM exC exW := by
    rw [exOut]
    exact List.mem_cons_self _ _
  exact ⟨rfl, hmem, (claim10_volatility_iff id 3 exM exC exW rfl _ hmem).1⟩

end Crid
